import Mathlib

/-!
Shallow embedding of `src/components/ratgdo/ratgdo.cpp` (esphome-ratgdo):
the command dispatcher (`decode_packet`), the door-position estimator,
the obstruction classifier, the boot synchronization retry loop and the
outgoing command entry points, together with theorems settling the
specification claims about them.

Machine integers are modelled as `Nat`/`Int` with explicit masking where
the C++ code masks; C++ `float` quantities (positions, durations, deltas)
are modelled as `ℚ`.  Logging, pin I/O and the byte-level wireline codec
are outside the modelled core: `decode_packet` is entered with the already
decoded `(fixed, data)` pair, and outgoing transmissions / scheduler calls
are recorded as explicit `Effect` values.

The headers `ratgdo.h` / `ratgdo_state.h` are not part of `src/`; the
enumerations, sentinel constants and two helper member functions they
declare are modelled from the spec, each with a doc comment saying so.
-/

namespace Ratgdo

/-- Door states, `ratgdo_state.h` (not in src/).  Modelled from the spec:
enum {UNKNOWN, OPEN, CLOSED, OPENING, CLOSING, STOPPED} (§3). -/
inductive DoorState where
  | UNKNOWN
  | OPEN
  | CLOSED
  | OPENING
  | CLOSING
  | STOPPED
deriving DecidableEq, Repr

/-- Light states, `ratgdo_state.h` (not in src/); the dispatcher casts a
single status bit, so OFF = 0, ON = 1. -/
inductive LightState where
  | OFF
  | ON
deriving DecidableEq, Repr

/-- Lock states, `ratgdo_state.h` (not in src/); UNLOCKED = 0, LOCKED = 1. -/
inductive LockState where
  | UNLOCKED
  | LOCKED
deriving DecidableEq, Repr

/-- Hold states, `ratgdo_state.h` (not in src/). -/
inductive HoldState where
  | HOLD_DISABLED
  | HOLD_ENABLED
deriving DecidableEq, Repr

/-- Motor states, `ratgdo_state.h` (not in src/); OFF = 0, ON = 1. -/
inductive MotorState where
  | OFF
  | ON
deriving DecidableEq, Repr

/-- Button states, `ratgdo_state.h` (not in src/). -/
inductive ButtonState where
  | RELEASED
  | PRESSED
deriving DecidableEq, Repr

/-- Motion states, `ratgdo_state.h` (not in src/); CLEAR = 0, DETECTED = 1. -/
inductive MotionState where
  | CLEAR
  | DETECTED
deriving DecidableEq, Repr

/-- Obstruction states, `ratgdo_state.h` (not in src/); the dispatcher casts
a single status bit, OBSTRUCTED = 0, CLEAR = 1. -/
inductive ObstructionState where
  | OBSTRUCTED
  | CLEAR
deriving DecidableEq, Repr

/-- Embeds `to_DoorState(nibble, UNKNOWN)` from `ratgdo_state.h` (not in src/).
Modelled from the spec (§4.1 step 3, STATUS: "decode door state from
nibble"): the Security+2.0 door-status nibble values, any other value
falling back to the supplied default UNKNOWN. -/
def toDoorState (n : Nat) : DoorState :=
  if n = 1 then DoorState.OPEN
  else if n = 2 then DoorState.CLOSED
  else if n = 3 then DoorState.STOPPED
  else if n = 4 then DoorState.OPENING
  else if n = 5 then DoorState.CLOSING
  else DoorState.UNKNOWN

/-- Embeds `static_cast<LightState>(bit)` with bit in {0,1} (line 223). -/
def lightStateOfBit (n : Nat) : LightState :=
  if n = 1 then LightState.ON else LightState.OFF

/-- Embeds `static_cast<LockState>(bit)` with bit in {0,1} (line 224). -/
def lockStateOfBit (n : Nat) : LockState :=
  if n = 1 then LockState.LOCKED else LockState.UNLOCKED

/-- Embeds `static_cast<ObstructionState>(bit)` with bit in {0,1} (line 230). -/
def obstructionStateOfBit (n : Nat) : ObstructionState :=
  if n = 1 then ObstructionState.CLEAR else ObstructionState.OBSTRUCTED

/-- Embeds `light_state_toggle` from `ratgdo_state.h` (not in src/).  Modelled from
the spec: LIGHT nibble 2 toggles the light state (§4.1). -/
def lightStateToggle : LightState → LightState
  | LightState.OFF => LightState.ON
  | LightState.ON => LightState.OFF

/-- Embeds `lock_state_toggle` from `ratgdo_state.h` (not in src/).  Modelled from
the spec: LOCK is symmetric to LIGHT (§4.1). -/
def lockStateToggle : LockState → LockState
  | LockState.UNLOCKED => LockState.LOCKED
  | LockState.LOCKED => LockState.UNLOCKED

/-- Embeds `hold_state_toggle` from `ratgdo_state.h` (not in src/).  Modelled from
the spec: hold enable/disable/toggle entry points (§6). -/
def holdStateToggle : HoldState → HoldState
  | HoldState.HOLD_DISABLED => HoldState.HOLD_ENABLED
  | HoldState.HOLD_ENABLED => HoldState.HOLD_DISABLED

/-- Embeds the `DOOR_POSITION_UNKNOWN` sentinel from `ratgdo.h` (not in src/).
Modelled from the spec: a sentinel value distinct from any valid reading
in [0,1] (§3); a negative value serves. -/
def DOOR_POSITION_UNKNOWN : ℚ := -1

/-- Embeds the `DOOR_DELTA_UNKNOWN` sentinel from `ratgdo.h` (not in src/).
Modelled from the spec: the `DELTA_UNKNOWN` sentinel of a movement
session (§3); a value outside [-1,1] serves. -/
def DOOR_DELTA_UNKNOWN : ℚ := -2

/-- Query-status flag bits from `ratgdo.h` (not in src/).  Modelled from
the spec: a bitset with one bit per status sub-query (§3). -/
def QSF_STATUS : Nat := 1

/-- See `QSF_STATUS`. -/
def QSF_EXT_STATUS : Nat := 2

/-- See `QSF_STATUS`. -/
def QSF_TCC_DUR : Nat := 4

/-- See `QSF_STATUS`. -/
def QSF_OPENINGS : Nat := 8

/-- The four query-status flags together: the sync completion predicate. -/
def QSF_ALL : Nat := QSF_STATUS ||| QSF_EXT_STATUS ||| QSF_TCC_DUR ||| QSF_OPENINGS

/- Command codes from the `Command` enum in `ratgdo.h` (not in src/).
Modelled from the spec: the dispatcher recognises these command kinds
(§4.1); the numeric values are placeholders — pairwise distinct, of the
shape `(high nibble << 8) | low byte` produced by line 93 — since only
their identity matters to the dispatcher. -/
namespace Cmd

def UNKNOWN : Nat := 0x000
def GET_STATUS : Nat := 0x080
def STATUS : Nat := 0x081
def LOCK : Nat := 0x18c
def DOOR_ACTION : Nat := 0x280
def LIGHT : Nat := 0x281
def MOTOR_ON : Nat := 0x284
def MOTION : Nat := 0x285
def GET_OPENINGS : Nat := 0x48b
def OPENINGS : Nat := 0x48c
def GET_EXT_STATUS : Nat := 0x090
def EXT_STATUS : Nat := 0x091
def TTC_GET_DURATION : Nat := 0x400
def TTC_DURATION : Nat := 0x401
def TTC_SET_DURATION : Nat := 0x402
def TTC_COUNTDOWN : Nat := 0x403
def TTC_CANCEL : Nat := 0x404

end Cmd

/- Payload constants from the `data` namespace in `ratgdo.h` (not in
src/).  Modelled from the spec: placeholder values, pairwise distinct
within each family; only their identity matters here. -/
namespace Data

def DOOR_CLOSE : Nat := 0
def DOOR_OPEN : Nat := 1
def DOOR_STOP : Nat := 2
def DOOR_TOGGLE : Nat := 3
def LIGHT_OFF : Nat := 0x52
def LIGHT_ON : Nat := 0x152
def LIGHT_TOGGLE : Nat := 0x252
def LOCK_OFF : Nat := 0x53
def LOCK_ON : Nat := 0x153
def LOCK_TOGGLE : Nat := 0x253
def TTC_CANCEL_OFF : Nat := 0x501
def TTC_CANCEL_TOGGLE_HOLD : Nat := 0x401
def GET_EXT_STATUS_DATA : Nat := 0x01
def TTC_GET_DURATION_DATA : Nat := 0x01

end Data

/-- All mutable state cells of `RATGDOComponent` that the modelled core
reads or writes (declared in `ratgdo.h`, mutated in `ratgdo.cpp`).
Defaults model the boot state: everything unknown / idle. -/
structure DeviceState where
  doorState : DoorState := DoorState.UNKNOWN
  lightState : LightState := LightState.OFF
  lockState : LockState := LockState.UNLOCKED
  holdState : HoldState := HoldState.HOLD_DISABLED
  motorState : MotorState := MotorState.OFF
  buttonState : ButtonState := ButtonState.RELEASED
  motionState : MotionState := MotionState.CLEAR
  obstructionState : ObstructionState := ObstructionState.CLEAR
  doorPosition : ℚ := DOOR_POSITION_UNKNOWN
  openings : Nat := 0
  ttcSeconds : Nat := 0
  openingDuration : ℚ := 0
  closingDuration : ℚ := 0
  startOpening : Int := 0
  startClosing : Int := 0
  doorStartMoving : Nat := 0
  doorStartPosition : ℚ := DOOR_POSITION_UNKNOWN
  doorMoveDelta : ℚ := DOOR_DELTA_UNKNOWN
  queryStatusFlags : Nat := 0
  movingToPosition : Bool := false
  restoreTtc : Bool := false
  restoreHoldState : Bool := false
  syncFailed : Bool := false
  obstructionFromStatus : Bool := false
  remoteId : Nat := 0x539
deriving DecidableEq, Repr

/-- The deferred work a scheduled closure performs when it fires
(the lambdas passed to `set_timeout` in `ratgdo.cpp`). -/
inductive TimeoutAction where
  /-- Embeds `send_command(Command::GET_STATUS)` (lines 159-161, 178-180). -/
  | getStatus
  /-- Embeds `door_command(data::DOOR_STOP)` (lines 681-683). -/
  | doorStop
  /-- button release frame of `door_command` (lines 705-708); carries the
  press-frame payload. -/
  | doorRelease (d : Nat)
  /-- TTC restore on close (lines 194-200). -/
  | ttcRestore
  /-- Embeds `send_command(Command::GET_EXT_STATUS, data::GET_EXT_STATUS)`
  (line 517). -/
  | getExtStatus
  /-- Embeds `send_command(Command::TTC_GET_DURATION, data::TTC_GET_DURATION)`
  (line 518). -/
  | getTtcDuration
  /-- Embeds `send_command(Command::GET_OPENINGS)` (line 519). -/
  | getOpenings
deriving DecidableEq, Repr

/-- An externally visible side effect requested by the component: an
outgoing command handed to the transmit path, or a call into the host
scheduler. -/
inductive Effect where
  | sendCommand (cmd : Nat) (d : Nat) (increment : Bool)
  | setTimeoutNamed (timerName : String) (ms : ℚ) (act : TimeoutAction)
  | setTimeoutAnon (ms : ℚ) (act : TimeoutAction)
  | setRetryNamed (timerName : String) (periodMs : ℚ) (count : Int)
  | cancelTimeout (timerName : String)
  | cancelRetry (timerName : String)
deriving DecidableEq, Repr

/-- A state transition together with the effects it requested. -/
structure StepResult where
  state : DeviceState
  effects : List Effect
deriving DecidableEq, Repr

/-- Result of `decode_packet`: the returned command code, the new state,
and the requested effects. -/
structure DecodeResult where
  cmd : Nat
  state : DeviceState
  effects : List Effect
deriving DecidableEq, Repr

/-- Embeds `esphome::clamp(v, lo, hi)` on floats (line 350). -/
def clampQ (v lo hi : ℚ) : ℚ := max lo (min hi v)

/-- C++ `int(q)` truncation toward zero of a float. -/
def truncQ (q : ℚ) : Int := if 0 ≤ q then q.floor else -((-q).floor)

/-- Line 93: `cmd = ((fixed >> 24) & 0xf00) | (data & 0xff)`. -/
def cmdOf (fixed dta : Nat) : Nat := ((fixed >>> 24) &&& 0xf00) ||| (dta &&& 0xff)

/-- Line 94: `data &= ~0xf000` on a `uint32_t` — clear the parity nibble
(bits 12-15). -/
def maskParity (dta : Nat) : Nat := dta &&& 0xffff0fff

/-- Line 104: `nibble = (data >> 8) & 0xff` after parity masking. -/
def nibbleOf (dta : Nat) : Nat := (maskParity dta >>> 8) &&& 0xff

/-- Line 105: `byte1 = (data >> 16) & 0xff` after parity masking. -/
def byte1Of (dta : Nat) : Nat := (maskParity dta >>> 16) &&& 0xff

/-- Line 106: `byte2 = (data >> 24) & 0xff` after parity masking. -/
def byte2Of (dta : Nat) : Nat := (maskParity dta >>> 24) &&& 0xff

/-- Embeds `RATGDOComponent::door_position_update` (lines 341-351): while a
movement session is active, recompute the position estimate from elapsed
time and the calibrated duration for the session's direction, clamped to
[0,1]; return immediately when any session field holds its sentinel. -/
def doorPositionUpdate (now : Nat) (s : DeviceState) : DeviceState :=
  if s.doorStartMoving = 0 ∨ s.doorStartPosition = DOOR_POSITION_UNKNOWN ∨
      s.doorMoveDelta = DOOR_DELTA_UNKNOWN then
    s
  else
    let duration : ℚ := if 0 < s.doorMoveDelta then s.openingDuration else -s.closingDuration
    let position : ℚ :=
      s.doorStartPosition + ((now - s.doorStartMoving : Nat) : ℚ) / (1000 * duration)
    { s with doorPosition := clampQ position 0 1 }

/-- Embeds `RATGDOComponent::cancel_position_sync_callbacks` (lines 686-698):
when a movement session is active, cancel the three scheduled callbacks
and reset the session fields to their sentinels; otherwise do nothing. -/
def cancelPositionSyncCallbacks (s : DeviceState) : StepResult :=
  if s.doorStartMoving ≠ 0 then
    { state := { s with doorStartMoving := 0
                        doorStartPosition := DOOR_POSITION_UNKNOWN
                        doorMoveDelta := DOOR_DELTA_UNKNOWN }
      effects := [Effect.cancelTimeout "move_to_position",
                  Effect.cancelRetry "position_sync_while_moving",
                  Effect.cancelTimeout "door_status_update"] }
  else
    { state := s, effects := [] }

/-- Default `update_period` argument of `schedule_door_position_sync`,
declared in `ratgdo.h` (not in src/).  Modelled from the spec: the
periodic position sync cadence (§4.2); 500 ms. -/
def POSITION_UPDATE_PERIOD : ℚ := 500

/-- Embeds `RATGDOComponent::schedule_door_position_sync` (lines 329-339):
register the periodic position-sync retry for the active session's
direction.  Pure effect, no state change. -/
def scheduleDoorPositionSync (s : DeviceState) : List Effect :=
  let duration : ℚ := if 0 < s.doorMoveDelta then s.openingDuration else s.closingDuration
  [Effect.setRetryNamed "position_sync_while_moving" POSITION_UPDATE_PERIOD
    (truncQ (1000 * duration / POSITION_UPDATE_PERIOD))]

/-- Embeds `RATGDOComponent::position_sync_while_opening`, declared in `ratgdo.h`
and not defined in src/.  Modelled from the spec: start a movement
session — record the start time, the start position and the signed delta
(positive while opening) — and schedule the periodic position sync
(§3 Movement Session, §4.2). -/
def positionSyncWhileOpening (now : Nat) (s : DeviceState) (delta : ℚ) : StepResult :=
  let s' := { s with doorStartMoving := now
                     doorStartPosition := s.doorPosition
                     doorMoveDelta := delta }
  { state := s', effects := scheduleDoorPositionSync s' }

/-- Embeds `RATGDOComponent::position_sync_while_closing`, declared in `ratgdo.h`
and not defined in src/.  Modelled from the spec: as
`positionSyncWhileOpening`, the delta negated because the session closes
(§3 Movement Session, §4.2). -/
def positionSyncWhileClosing (now : Nat) (s : DeviceState) (delta : ℚ) : StepResult :=
  let s' := { s with doorStartMoving := now
                     doorStartPosition := s.doorPosition
                     doorMoveDelta := -delta }
  { state := s', effects := scheduleDoorPositionSync s' }

/-- Opening-duration calibration (lines 116-128): only while
`opening_duration` is still 0, record `start_opening` on CLOSED→OPENING,
set the duration on OPENING→OPEN with a valid timer, and invalidate the
timer on STOPPED. -/
def calibOpening (now : Nat) (s : DeviceState) (ds prev : DoorState) : DeviceState :=
  if s.openingDuration = 0 then
    let a := if ds = DoorState.OPENING ∧ prev = DoorState.CLOSED then
               { s with startOpening := (now : Int) }
             else s
    let b := if ds = DoorState.OPEN ∧ prev = DoorState.OPENING ∧ 0 < a.startOpening then
               { a with openingDuration := ((((now : Int) - a.startOpening).toNat / 1000 : Nat) : ℚ) }
             else a
    if ds = DoorState.STOPPED then { b with startOpening := -1 } else b
  else s

/-- Closing-duration calibration (lines 129-141), symmetric to
`calibOpening`. -/
def calibClosing (now : Nat) (s : DeviceState) (ds prev : DoorState) : DeviceState :=
  if s.closingDuration = 0 then
    let a := if ds = DoorState.CLOSING ∧ prev = DoorState.OPEN then
               { s with startClosing := (now : Int) }
             else s
    let b := if ds = DoorState.CLOSED ∧ prev = DoorState.CLOSING ∧ 0 < a.startClosing then
               { a with closingDuration := ((((now : Int) - a.startClosing).toNat / 1000 : Nat) : ℚ) }
             else a
    if ds = DoorState.STOPPED then { b with startClosing := -1 } else b
  else s

/-- Movement-transition handling of the STATUS branch (lines 143-207):
session start on OPENING/CLOSING (with reversal flush), position
recompute and teardown on STOPPED, exact snap on OPEN/CLOSED (with TTC
restore on CLOSED), best-guess 0.5 on an unknown nibble. -/
def statusMove (now : Nat) (s : DeviceState) (ds prev : DoorState) : StepResult :=
  if ds = DoorState.OPENING then
    let r1 : StepResult :=
      if prev = DoorState.CLOSING then
        let u := doorPositionUpdate now s
        let c := cancelPositionSyncCallbacks u
        { state := { c.state with doorMoveDelta := DOOR_DELTA_UNKNOWN }
          effects := c.effects }
      else { state := s, effects := [] }
    let b := { r1.state with doorStartMoving := now
                             doorStartPosition := r1.state.doorPosition }
    let c := if b.doorMoveDelta = DOOR_DELTA_UNKNOWN then
               { b with doorMoveDelta := 1 - b.doorStartPosition }
             else b
    { state := c
      effects := r1.effects ++ scheduleDoorPositionSync c ++
        [Effect.setTimeoutNamed "door_status_update" ((c.openingDuration + 1) * 1000)
          TimeoutAction.getStatus] }
  else if ds = DoorState.CLOSING then
    let r1 : StepResult :=
      if prev = DoorState.OPENING then
        let u := doorPositionUpdate now s
        let c := cancelPositionSyncCallbacks u
        { state := { c.state with doorMoveDelta := DOOR_DELTA_UNKNOWN }
          effects := c.effects }
      else { state := s, effects := [] }
    let b := { r1.state with doorStartMoving := now
                             doorStartPosition := r1.state.doorPosition }
    let c := if b.doorMoveDelta = DOOR_DELTA_UNKNOWN then
               { b with doorMoveDelta := 0 - b.doorStartPosition }
             else b
    { state := c
      effects := r1.effects ++ scheduleDoorPositionSync c ++
        [Effect.setTimeoutNamed "door_status_update" ((c.closingDuration + 1) * 1000)
          TimeoutAction.getStatus] }
  else if ds = DoorState.STOPPED then
    let u := doorPositionUpdate now s
    let u2 := if u.doorPosition = DOOR_POSITION_UNKNOWN then
                { u with doorPosition := 1/2 }
              else u
    cancelPositionSyncCallbacks u2
  else if ds = DoorState.OPEN then
    cancelPositionSyncCallbacks { s with doorPosition := 1 }
  else if ds = DoorState.CLOSED then
    let a := { s with doorPosition := 0 }
    if a.restoreTtc then
      { state := { a with restoreTtc := false }
        effects := [Effect.setTimeoutAnon 100 TimeoutAction.ttcRestore] }
    else { state := a, effects := [] }
  else
    { state :=
        if s.closingDuration = 0 ∨ s.openingDuration = 0 ∨
            s.doorPosition = DOOR_POSITION_UNKNOWN then
          { s with doorPosition := 1/2 }
        else s
      effects := [] }

/-- Lines 209-216: if the door starts moving and no position-sync session
was marked yet, start one and mark `moving_to_position`. -/
def statusSyncStart (now : Nat) (s : DeviceState) (ds : DoorState) : StepResult :=
  if ds = DoorState.OPENING ∧ s.movingToPosition = false then
    let r := positionSyncWhileOpening now s (1 - s.doorPosition)
    { state := { r.state with movingToPosition := true }, effects := r.effects }
  else if ds = DoorState.CLOSING ∧ s.movingToPosition = false then
    let r := positionSyncWhileClosing now s s.doorPosition
    { state := { r.state with movingToPosition := true }, effects := r.effects }
  else { state := s, effects := [] }

/-- Lines 218-220: any terminal door state cancels the position-sync
callbacks (and tears the session down). -/
def statusCancelTerminal (s : DeviceState) (ds : DoorState) : StepResult :=
  if ds = DoorState.OPEN ∨ ds = DoorState.CLOSED ∨ ds = DoorState.STOPPED then
    cancelPositionSyncCallbacks s
  else { state := s, effects := [] }

/-- Lines 222-239: commit the decoded door state, light/lock bits of
`byte2`, reset motion/motor, optionally read obstruction from `byte1`
bit 6, and request GET_OPENINGS on a fresh transition into CLOSED. -/
def statusAssign (s : DeviceState) (ds prev : DoorState) (byte1 byte2 : Nat) : StepResult :=
  let a := { s with doorState := ds
                    lightState := lightStateOfBit ((byte2 >>> 1) &&& 1)
                    lockState := lockStateOfBit (byte2 &&& 1)
                    motionState := MotionState.CLEAR
                    motorState := MotorState.OFF }
  let b := if a.obstructionFromStatus then
             { a with obstructionState := obstructionStateOfBit ((byte1 >>> 6) &&& 1) }
           else a
  { state := b
    effects := if ds = DoorState.CLOSED ∧ ds ≠ prev then
                 [Effect.sendCommand Cmd.GET_OPENINGS 0 true]
               else [] }

/-- The STATUS branch of `decode_packet` (lines 110-244), staged in
source order: query flag, calibration, movement handling, sync start,
terminal cancel, state commit. -/
def statusBranch (now : Nat) (s : DeviceState) (nibble byte1 byte2 : Nat) : StepResult :=
  let ds := toDoorState nibble
  let prev := s.doorState
  let s1 := { s with queryStatusFlags := s.queryStatusFlags ||| QSF_STATUS }
  let s2 := calibOpening now s1 ds prev
  let s3 := calibClosing now s2 ds prev
  let r4 := statusMove now s3 ds prev
  let r5 := statusSyncStart now r4.state ds
  let r6 := statusCancelTerminal r5.state ds
  let r7 := statusAssign r6.state ds prev byte1 byte2
  { state := r7.state, effects := r4.effects ++ r5.effects ++ r6.effects ++ r7.effects }

/-- The LIGHT branch (lines 245-256): nibble 0/1/2 map to OFF/ON/TOGGLE. -/
def lightBranch (s : DeviceState) (nibble : Nat) : StepResult :=
  { state :=
      if nibble = 0 then { s with lightState := LightState.OFF }
      else if nibble = 1 then { s with lightState := LightState.ON }
      else if nibble = 2 then { s with lightState := lightStateToggle s.lightState }
      else s
    effects := [] }

/-- The MOTOR_ON branch (lines 257-259). -/
def motorOnBranch (s : DeviceState) : StepResult :=
  { state := { s with motorState := MotorState.ON }, effects := [] }

/-- The DOOR_ACTION branch (lines 260-262): button pressed/released from
bit 0 of `byte1`. -/
def doorActionBranch (s : DeviceState) (byte1 : Nat) : StepResult :=
  { state := { s with buttonState :=
      if byte1 &&& 1 = 1 then ButtonState.PRESSED else ButtonState.RELEASED }
    effects := [] }

/-- The OPENINGS branch (lines 263-272): accept the new count only when
the nibble marks our own request or the counter is already non-zero. -/
def openingsBranch (s : DeviceState) (nibble byte1 byte2 : Nat) : StepResult :=
  if nibble = 0 ∨ s.openings ≠ 0 then
    { state := { s with openings := (byte1 <<< 8) ||| byte2
                        queryStatusFlags := s.queryStatusFlags ||| QSF_OPENINGS }
      effects := [] }
  else
    { state := s, effects := [] }

/-- The MOTION branch (lines 273-278): set DETECTED; refresh status when
the light is off. -/
def motionBranch (s : DeviceState) : StepResult :=
  { state := { s with motionState := MotionState.DETECTED }
    effects := if s.lightState = LightState.OFF then
                 [Effect.sendCommand Cmd.GET_STATUS 0 true]
               else [] }

/-- Embeds `RATGDOComponent::toggle_hold` (lines 763-767): toggle the hold cell
and send the TTC cancel/toggle command. -/
def toggleHold (s : DeviceState) : StepResult :=
  { state := { s with holdState := holdStateToggle s.holdState }
    effects := [Effect.sendCommand Cmd.TTC_CANCEL Data.TTC_CANCEL_TOGGLE_HOLD true] }

/-- Embeds `RATGDOComponent::hold_enable` (lines 749-754): toggle only when
currently disabled. -/
def holdEnable (s : DeviceState) : StepResult :=
  if s.holdState = HoldState.HOLD_DISABLED then toggleHold s
  else { state := s, effects := [] }

/-- Embeds `RATGDOComponent::hold_disable` (lines 756-761): toggle only when
currently enabled. -/
def holdDisable (s : DeviceState) : StepResult :=
  if s.holdState = HoldState.HOLD_ENABLED then toggleHold s
  else { state := s, effects := [] }

/-- The TTC_DURATION branch (lines 282-295): mark the query flag; accept
only the allow-listed durations {0,60,300,600}; any other value except
the sentinel 1 resets the cell to 0; then restore hold state when
requested. -/
def ttcDurationBranch (s : DeviceState) (byte1 byte2 : Nat) : StepResult :=
  let seconds := (byte1 <<< 8) ||| byte2
  let a := { s with queryStatusFlags := s.queryStatusFlags ||| QSF_TCC_DUR }
  let b := if seconds = 60 ∨ seconds = 300 ∨ seconds = 600 ∨ seconds = 0 then
             { a with ttcSeconds := seconds }
           else if seconds ≠ 1 then { a with ttcSeconds := 0 }
           else a
  if b.restoreHoldState = true ∧ b.restoreTtc = false then
    let r := holdEnable b
    { state := { r.state with restoreHoldState := false }, effects := r.effects }
  else { state := b, effects := [] }

/-- The EXT_STATUS branch (lines 307-324): map `byte1` to hold/TTC
sub-states. -/
def extStatusBranch (s : DeviceState) (byte1 : Nat) : StepResult :=
  let a := { s with queryStatusFlags := s.queryStatusFlags ||| QSF_EXT_STATUS }
  { state :=
      if byte1 = 0x09 then
        { a with holdState := HoldState.HOLD_DISABLED, ttcSeconds := 0 }
      else if byte1 = 0x0a then { a with holdState := HoldState.HOLD_ENABLED }
      else if byte1 = 0x0c ∨ byte1 = 0x01 then
        { a with holdState := HoldState.HOLD_DISABLED }
      else a
    effects := [] }

/-- The command dispatch chain of `decode_packet` (lines 110-324), after
the self-echo check; branches not handling state (TTC_SET_DURATION,
TTC_COUNTDOWN, TTC_CANCEL, unrecognized) only log. -/
def dispatchCmd (now : Nat) (s : DeviceState) (cmd nibble byte1 byte2 : Nat) : StepResult :=
  if cmd = Cmd.STATUS then statusBranch now s nibble byte1 byte2
  else if cmd = Cmd.LIGHT then lightBranch s nibble
  else if cmd = Cmd.MOTOR_ON then motorOnBranch s
  else if cmd = Cmd.DOOR_ACTION then doorActionBranch s byte1
  else if cmd = Cmd.OPENINGS then openingsBranch s nibble byte1 byte2
  else if cmd = Cmd.MOTION then motionBranch s
  else if cmd = Cmd.TTC_SET_DURATION then { state := s, effects := [] }
  else if cmd = Cmd.TTC_DURATION then ttcDurationBranch s byte1 byte2
  else if cmd = Cmd.TTC_COUNTDOWN then { state := s, effects := [] }
  else if cmd = Cmd.TTC_CANCEL then { state := s, effects := [] }
  else if cmd = Cmd.EXT_STATUS then extStatusBranch s byte1
  else { state := s, effects := [] }

/-- Embeds `RATGDOComponent::decode_packet` (lines 85-327): compute the command
code, drop self-originated echo frames (fixed-id low 28 bits equal to the
local remote id) returning UNKNOWN, otherwise dispatch on the command
code and return it. -/
def decodePacket (now : Nat) (s : DeviceState) (fixed dta : Nat) : DecodeResult :=
  let cmd := cmdOf fixed dta
  if fixed &&& 0xfffffff = s.remoteId then
    { cmd := Cmd.UNKNOWN, state := s, effects := [] }
  else
    let r := dispatchCmd now s cmd (nibbleOf dta) (byte1Of dta) (byte2Of dta)
    { cmd := cmd, state := r.state, effects := r.effects }

/-- Embeds `RATGDOComponent::door_command` (lines 700-709): set the button-1 and
press bits, send the press frame without incrementing the counter, and
schedule the release frame 200 ms later.  Pure effects, no state
change. -/
def doorCommand (d : Nat) : List Effect :=
  let d' := d ||| (1 <<< 16) ||| (1 <<< 8)
  [Effect.sendCommand Cmd.DOOR_ACTION d' false,
   Effect.setTimeoutAnon 200 (TimeoutAction.doorRelease d')]

/-- Embeds `RATGDOComponent::door_move_to_position` (lines 657-684): reject while
already moving, on a zero delta, or with an unknown duration for the
required direction; otherwise record the delta, issue the directional
door command and schedule the one-shot stop. -/
def doorMoveToPosition (s : DeviceState) (target : ℚ) : StepResult :=
  if s.doorState = DoorState.OPENING ∨ s.doorState = DoorState.CLOSING then
    { state := s, effects := [] }
  else
    let delta := target - s.doorPosition
    if delta = 0 then { state := s, effects := [] }
    else
      let duration : ℚ := if 0 < delta then s.openingDuration else -s.closingDuration
      if duration = 0 then { state := s, effects := [] }
      else
        let operationTime := 1000 * duration * delta
        { state := { s with doorMoveDelta := delta }
          effects :=
            doorCommand (if 0 < delta then Data.DOOR_OPEN else Data.DOOR_CLOSE) ++
            [Effect.setTimeoutNamed "move_to_position" operationTime TimeoutAction.doorStop] }

/-- Embeds `RATGDOComponent::set_ttc_sec` (lines 569-572): payload packing of the
TTC set-duration command. -/
def setTtcSecData (duration : Nat) : Nat :=
  ((duration &&& 0xff) <<< 16) ||| (duration &&& 0xff00) ||| 0x01

/-- What each scheduled closure does to the component when it fires:
the bodies of the lambdas in `ratgdo.cpp` (state change plus requested
effects). -/
def runTimeoutAction (act : TimeoutAction) (s : DeviceState) : StepResult :=
  match act with
  | TimeoutAction.getStatus =>
      { state := s, effects := [Effect.sendCommand Cmd.GET_STATUS 0 true] }
  | TimeoutAction.doorStop =>
      { state := s, effects := doorCommand Data.DOOR_STOP }
  | TimeoutAction.doorRelease d =>
      { state := s, effects := [Effect.sendCommand Cmd.DOOR_ACTION (d - (d &&& (1 <<< 8))) true] }
  | TimeoutAction.ttcRestore =>
      { state := s
        effects :=
          if s.ttcSeconds = 0 then
            [Effect.sendCommand Cmd.TTC_CANCEL Data.TTC_CANCEL_OFF true]
          else
            [Effect.sendCommand Cmd.TTC_SET_DURATION (setTtcSecData s.ttcSeconds) true] }
  | TimeoutAction.getExtStatus =>
      { state := s, effects := [Effect.sendCommand Cmd.GET_EXT_STATUS Data.GET_EXT_STATUS_DATA true] }
  | TimeoutAction.getTtcDuration =>
      { state := s, effects := [Effect.sendCommand Cmd.TTC_GET_DURATION Data.TTC_GET_DURATION_DATA true] }
  | TimeoutAction.getOpenings =>
      { state := s, effects := [Effect.sendCommand Cmd.GET_OPENINGS 0 true] }

/-- Embeds `RATGDOComponent::light_on` (lines 711-715). -/
def lightOn (s : DeviceState) : StepResult :=
  { state := { s with lightState := LightState.ON }
    effects := [Effect.sendCommand Cmd.LIGHT Data.LIGHT_ON true] }

/-- Embeds `RATGDOComponent::light_off` (lines 717-721). -/
def lightOff (s : DeviceState) : StepResult :=
  { state := { s with lightState := LightState.OFF }
    effects := [Effect.sendCommand Cmd.LIGHT Data.LIGHT_OFF true] }

/-- Embeds `RATGDOComponent::toggle_light` (lines 723-727). -/
def toggleLight (s : DeviceState) : StepResult :=
  { state := { s with lightState := lightStateToggle s.lightState }
    effects := [Effect.sendCommand Cmd.LIGHT Data.LIGHT_TOGGLE true] }

/-- Embeds `RATGDOComponent::lock` (lines 730-734). -/
def lockDoorOpener (s : DeviceState) : StepResult :=
  { state := { s with lockState := LockState.LOCKED }
    effects := [Effect.sendCommand Cmd.LOCK Data.LOCK_ON true] }

/-- Embeds `RATGDOComponent::unlock` (lines 736-740). -/
def unlockDoorOpener (s : DeviceState) : StepResult :=
  { state := { s with lockState := LockState.UNLOCKED }
    effects := [Effect.sendCommand Cmd.LOCK Data.LOCK_OFF true] }

/-- Embeds `RATGDOComponent::toggle_lock` (lines 742-746). -/
def toggleLock (s : DeviceState) : StepResult :=
  { state := { s with lockState := lockStateToggle s.lockState }
    effects := [Effect.sendCommand Cmd.LOCK Data.LOCK_TOGGLE true] }

/-- Outputs of one call to `obstruction_loop`: the three function-static
variables (`last_millis`, `last_asleep`), the ISR pulse counter, and the
obstruction cell. -/
structure ObstructionTick where
  lastMillis : Nat
  lastAsleep : Nat
  lowCount : Nat
  state : ObstructionState
deriving DecidableEq, Repr

/-- Embeds `RATGDOComponent::obstruction_loop` (lines 417-456): at most one
classification tick per elapsed `CHECK_PERIOD` of 50 ms; strictly more
than `PULSES_LOWER_LIMIT` = 3 pulses means CLEAR; zero pulses with the
line low records the asleep timestamp; zero pulses with the line high
means OBSTRUCTED once the line was last low more than 700 ms ago; the
pulse counter is zeroed at the end of every tick.  `millis()` deltas are
the C++ unsigned subtractions, faithful for monotone time. -/
def obstructionLoop (currentMillis lastMillis lastAsleep lowCount : Nat)
    (lineHigh : Bool) (st : ObstructionState) : ObstructionTick :=
  if currentMillis - lastMillis > 50 then
    if lowCount > 3 then
      { lastMillis := currentMillis, lastAsleep := lastAsleep, lowCount := 0
        state := ObstructionState.CLEAR }
    else if lowCount = 0 then
      if lineHigh = false then
        { lastMillis := currentMillis, lastAsleep := currentMillis, lowCount := 0
          state := st }
      else if currentMillis - lastAsleep > 700 then
        { lastMillis := currentMillis, lastAsleep := lastAsleep, lowCount := 0
          state := ObstructionState.OBSTRUCTED }
      else
        { lastMillis := currentMillis, lastAsleep := lastAsleep, lowCount := 0
          state := st }
    else
      { lastMillis := currentMillis, lastAsleep := lastAsleep, lowCount := 0
        state := st }
  else
    { lastMillis := lastMillis, lastAsleep := lastAsleep, lowCount := lowCount
      state := st }

/-- The retry callback of `query_status` (lines 507-526), acting on the
flag bitset and the `sync_failed` cell: DONE once all four query-status
flags are present; otherwise re-issue the four status queries (GET_STATUS
at once, the other three staggered by 150 ms) and, on the final attempt
(`r = 0`), raise `sync_failed`. -/
inductive RetryOutcome where
  | DONE
  | RETRY
deriving DecidableEq, Repr

/-- See `RetryOutcome`.  `r` is the number of attempts remaining after the
current one. -/
def queryStatusBody (r : Nat) (flags : Nat) (syncFailed : Bool) :
    RetryOutcome × Bool × List Effect :=
  if flags = QSF_ALL then (RetryOutcome.DONE, syncFailed, [])
  else
    (RetryOutcome.RETRY,
     if r = 0 then true else syncFailed,
     [Effect.sendCommand Cmd.GET_STATUS 0 true,
      Effect.setTimeoutAnon 150 TimeoutAction.getExtStatus,
      Effect.setTimeoutAnon 300 TimeoutAction.getTtcDuration,
      Effect.setTimeoutAnon 450 TimeoutAction.getOpenings])

/-- The `set_retry` scheduler driving `query_status` lives in the host
framework, not in src/.  Modelled from the spec (§4.4): the callback runs
up to the attempt budget, receives the count of attempts remaining after
the current one (0 on the final attempt), and the loop stops as soon as
the callback answers DONE.  Answer frames arrive between attempts and
OR bits into the flag set, so the bitset visible to attempt `k` is an
arbitrary environment function `flagsAt k`.  Returns which attempt (if
any) completed the sync, and how many attempts raised `sync_failed`. -/
def runRetryAux (flagsAt : Nat → Nat) (k : Nat) :
    Nat → Nat → Option Nat × Nat
  | 0, failCount => (none, failCount)
  | remaining + 1, failCount =>
      match queryStatusBody remaining (flagsAt k) false with
      | (RetryOutcome.DONE, _, _) => (some k, failCount)
      | (RetryOutcome.RETRY, sf, _) =>
          runRetryAux flagsAt (k + 1) remaining (if sf then failCount + 1 else failCount)

/-- Embeds `query_status` (lines 503-528) modulo the external scheduler: reset
the flag bitset, then run the bounded retry loop with a budget of 10
attempts. -/
def runQueryStatus (flagsAt : Nat → Nat) : Option Nat × Nat :=
  runRetryAux flagsAt 0 10 0

/-- The scheduling constants of the `set_retry` call in `query_status`
(lines 507-528): base interval 750 ms, 10 attempts, backoff factor 1.5. -/
def queryStatusRetryParams : ℚ × Nat × ℚ := (750, 10, 3/2)

/-! Dispatch lemmas: how `decodePacket` reduces once the decoded command
code is known. -/

lemma decodePacket_mine {s : DeviceState} {fixed : Nat} (now dta : Nat)
    (h : fixed &&& 0xfffffff = s.remoteId) :
    decodePacket now s fixed dta = { cmd := Cmd.UNKNOWN, state := s, effects := [] } := by
  simp [decodePacket, h]

lemma decodePacket_not_mine {s : DeviceState} {fixed : Nat} (now dta : Nat)
    (h : ¬(fixed &&& 0xfffffff = s.remoteId)) :
    decodePacket now s fixed dta =
      { cmd := cmdOf fixed dta
        state := (dispatchCmd now s (cmdOf fixed dta) (nibbleOf dta) (byte1Of dta) (byte2Of dta)).state
        effects := (dispatchCmd now s (cmdOf fixed dta) (nibbleOf dta) (byte1Of dta) (byte2Of dta)).effects } := by
  simp [decodePacket, h]

lemma dispatchCmd_status (now : Nat) (s : DeviceState) (nibble byte1 byte2 : Nat) :
    dispatchCmd now s Cmd.STATUS nibble byte1 byte2 = statusBranch now s nibble byte1 byte2 := by
  rw [dispatchCmd, if_pos rfl]

lemma dispatchCmd_openings (now : Nat) (s : DeviceState) (nibble byte1 byte2 : Nat) :
    dispatchCmd now s Cmd.OPENINGS nibble byte1 byte2 = openingsBranch s nibble byte1 byte2 := by
  rw [dispatchCmd, if_neg (by decide), if_neg (by decide), if_neg (by decide),
    if_neg (by decide), if_pos rfl]

lemma dispatchCmd_ttcDuration (now : Nat) (s : DeviceState) (nibble byte1 byte2 : Nat) :
    dispatchCmd now s Cmd.TTC_DURATION nibble byte1 byte2 = ttcDurationBranch s byte1 byte2 := by
  rw [dispatchCmd, if_neg (by decide), if_neg (by decide), if_neg (by decide),
    if_neg (by decide), if_neg (by decide), if_neg (by decide), if_neg (by decide), if_pos rfl]

/-! ## Claim theorems -/

/-- An arbitrary concrete device state used by witnesses: boot defaults,
remote id 0x539. -/
def exBase : DeviceState := {}

/-- C1: a decoded frame whose fixed field's low 28 bits equal the local
remote id makes `decode_packet` return `Command::UNKNOWN` with every
state cell unchanged and no side effect, whatever the command code and
payload. -/
theorem c1_self_echo_suppression (now : Nat) (s : DeviceState) (fixed dta : Nat)
    (h : fixed &&& 0xfffffff = s.remoteId) :
    decodePacket now s fixed dta = { cmd := Cmd.UNKNOWN, state := s, effects := [] } := by
  simp [decodePacket, h]

/-- Witness for C1: a concrete self-echo frame (fixed = the remote id,
arbitrary payload) is dropped unchanged. -/
theorem c1_self_echo_suppression_witness :
    decodePacket 5 exBase 0x539 0x123456 =
      { cmd := Cmd.UNKNOWN, state := exBase, effects := [] } :=
  c1_self_echo_suppression 5 exBase 0x539 0x123456 (by decide)

lemma holdEnable_preserves_ttc (s : DeviceState) :
    (holdEnable s).state.ttcSeconds = s.ttcSeconds ∧
    (holdEnable s).state.queryStatusFlags = s.queryStatusFlags := by
  unfold holdEnable toggleHold
  split <;> simp

lemma ttcDurationBranch_ttcSeconds (s : DeviceState) (b1 b2 : Nat) :
    (ttcDurationBranch s b1 b2).state.ttcSeconds =
      (if b1 <<< 8 ||| b2 = 60 ∨ b1 <<< 8 ||| b2 = 300 ∨ b1 <<< 8 ||| b2 = 600 ∨ b1 <<< 8 ||| b2 = 0
       then b1 <<< 8 ||| b2
       else if b1 <<< 8 ||| b2 ≠ 1 then 0 else s.ttcSeconds) := by
  simp only [ttcDurationBranch, holdEnable, toggleHold]
  split_ifs <;> simp_all

lemma ttcDurationBranch_flags (s : DeviceState) (b1 b2 : Nat) :
    (ttcDurationBranch s b1 b2).state.queryStatusFlags = s.queryStatusFlags ||| QSF_TCC_DUR := by
  simp only [ttcDurationBranch, holdEnable, toggleHold]
  split_ifs <;> simp_all

/-- C3 (counterexample): a TTC_DURATION frame decoding to 1 second — not
in the allow list {0,60,300,600} — leaves `ttc_time_seconds` at its prior
value 60 instead of resetting it to 0; the claim's "for every other
decoded seconds value it resets ttc_time_seconds to 0" fails at
seconds = 1. -/
theorem c3_ttc_counterexample :
    cmdOf 0x400000000 0x1000001 = Cmd.TTC_DURATION
  ∧ ((byte1Of 0x1000001 <<< 8) ||| byte2Of 0x1000001) = 1
  ∧ (decodePacket 0 { exBase with ttcSeconds := 60 } 0x400000000 0x1000001).state.ttcSeconds = 60 := by
  decide

/-- C3 (amended): on a TTC_DURATION frame the dispatcher marks the
QSF_TCC_DUR flag and sets `ttc_time_seconds` to the decoded seconds
exactly when that value is in {0, 60, 300, 600}; every other value
except the sentinel 1 (used internally by close-with-alert) resets the
cell to 0; the value 1 leaves it unchanged. -/
theorem c3_ttc_duration_allowlist (now : Nat) (s : DeviceState) (fixed dta : Nat)
    (hecho : ¬(fixed &&& 0xfffffff = s.remoteId))
    (hcmd : cmdOf fixed dta = Cmd.TTC_DURATION) :
    (((byte1Of dta <<< 8) ||| byte2Of dta = 0 ∨ (byte1Of dta <<< 8) ||| byte2Of dta = 60 ∨
      (byte1Of dta <<< 8) ||| byte2Of dta = 300 ∨ (byte1Of dta <<< 8) ||| byte2Of dta = 600) →
      (decodePacket now s fixed dta).state.ttcSeconds = (byte1Of dta <<< 8) ||| byte2Of dta)
  ∧ ((byte1Of dta <<< 8) ||| byte2Of dta ≠ 0 → (byte1Of dta <<< 8) ||| byte2Of dta ≠ 60 →
      (byte1Of dta <<< 8) ||| byte2Of dta ≠ 300 → (byte1Of dta <<< 8) ||| byte2Of dta ≠ 600 →
      (byte1Of dta <<< 8) ||| byte2Of dta ≠ 1 →
      (decodePacket now s fixed dta).state.ttcSeconds = 0)
  ∧ ((byte1Of dta <<< 8) ||| byte2Of dta = 1 →
      (decodePacket now s fixed dta).state.ttcSeconds = s.ttcSeconds)
  ∧ (decodePacket now s fixed dta).state.queryStatusFlags =
      s.queryStatusFlags ||| QSF_TCC_DUR := by
  rw [decodePacket_not_mine now dta hecho, hcmd, dispatchCmd_ttcDuration]
  refine ⟨?_, ?_, ?_, ?_⟩
  · intro h
    rw [ttcDurationBranch_ttcSeconds, if_pos (by tauto)]
  · intro h0 h60 h300 h600 h1
    rw [ttcDurationBranch_ttcSeconds, if_neg (by tauto), if_pos h1]
  · intro h1
    rw [ttcDurationBranch_ttcSeconds, if_neg (by omega), if_neg (by omega)]
  · exact ttcDurationBranch_flags s (byte1Of dta) (byte2Of dta)

/-- Witness for C3's amended theorem: a TTC_DURATION frame decoding to
300 seconds (an allow-listed value) sets the cell to 300. -/
theorem c3_ttc_duration_allowlist_witness :
    (decodePacket 0 exBase 0x400000000 0x2c010001).state.ttcSeconds =
      (byte1Of 0x2c010001 <<< 8) ||| byte2Of 0x2c010001 :=
  (c3_ttc_duration_allowlist 0 exBase 0x400000000 0x2c010001 (by decide) (by decide)).1
    (by decide)

/-- C7: an OPENINGS frame updates the openings counter to
`(byte1 << 8) | byte2` and marks the QSF_OPENINGS flag exactly when its
nibble is 0 (it answers our own request) or the counter is already
non-zero; otherwise — counter still 0 and nibble non-zero — the frame is
ignored and the whole state, flag included, is unchanged. -/
theorem c7_openings_guard (now : Nat) (s : DeviceState) (fixed dta : Nat)
    (hecho : ¬(fixed &&& 0xfffffff = s.remoteId))
    (hcmd : cmdOf fixed dta = Cmd.OPENINGS) :
    ((s.openings = 0 ∧ nibbleOf dta ≠ 0) → (decodePacket now s fixed dta).state = s)
  ∧ ((nibbleOf dta = 0 ∨ s.openings ≠ 0) →
      (decodePacket now s fixed dta).state =
        { s with openings := (byte1Of dta <<< 8) ||| byte2Of dta
                 queryStatusFlags := s.queryStatusFlags ||| QSF_OPENINGS }) := by
  rw [decodePacket_not_mine now dta hecho, hcmd, dispatchCmd_openings]
  constructor
  · rintro ⟨h0, hn⟩
    rw [openingsBranch, if_neg (by simp [hn, h0])]
  · intro h
    rw [openingsBranch, if_pos h]

/-- The concrete state of the spec's move-to-position scenario: door
fully open at position 1.0, closing duration calibrated to 10 s. -/
def c2state : DeviceState :=
  { doorState := DoorState.OPEN, doorPosition := 1, closingDuration := 10 }

/-- C2 (counterexample): `move_to_position(0.3)` from position 1.0 with
closing duration 10 s schedules the stop 7000 ms out as claimed, but when
that timeout fires only `door_command(DOOR_STOP)` is issued — the door
position cell still reads 1.0, not the requested 0.3, so "the door
position is set exactly to the requested target" fails. -/
theorem c2_move_counterexample :
    (doorMoveToPosition c2state (3/10)).effects =
      doorCommand Data.DOOR_CLOSE ++
        [Effect.setTimeoutNamed "move_to_position" 7000 TimeoutAction.doorStop]
  ∧ (runTimeoutAction TimeoutAction.doorStop
      (doorMoveToPosition c2state (3/10)).state).state.doorPosition = 1
  ∧ (1 : ℚ) ≠ 3/10 := by
  refine ⟨?_, ?_, by norm_num⟩ <;>
    simp [runTimeoutAction, doorMoveToPosition, c2state,
      show ¬((3:ℚ)/10 - 1 = 0) by norm_num,
      show ¬(0 < (3:ℚ)/10 - 1) by norm_num,
      show ¬(-(10:ℚ) = 0) by norm_num,
      show (1000:ℚ) * -10 * (3/10 - 1) = 7000 by norm_num] <;>
    norm_num

/-- C2 (amended): `door_move_to_position(target)` is a no-op while the
door is OPENING or CLOSING, when `target - door_position` is 0, and when
the duration for the required direction is unknown (0); otherwise it
records `door_move_delta = target - door_position`, issues the
directional door command, and schedules the one-shot stop command after
`|delta| * duration_for_direction * 1000` ms; when that timeout fires a
stop door command is issued and the door position cell is left unchanged
(it is not set to the target; position converges via
`door_position_update` and subsequent status frames). -/
theorem c2_move_to_position (s : DeviceState) (target : ℚ) :
    ((s.doorState = DoorState.OPENING ∨ s.doorState = DoorState.CLOSING) →
        doorMoveToPosition s target = { state := s, effects := [] })
  ∧ (target - s.doorPosition = 0 →
        doorMoveToPosition s target = { state := s, effects := [] })
  ∧ (0 < target - s.doorPosition → s.openingDuration = 0 →
        doorMoveToPosition s target = { state := s, effects := [] })
  ∧ (target - s.doorPosition < 0 → s.closingDuration = 0 →
        doorMoveToPosition s target = { state := s, effects := [] })
  ∧ (s.doorState ≠ DoorState.OPENING → s.doorState ≠ DoorState.CLOSING →
      0 < target - s.doorPosition → s.openingDuration ≠ 0 →
        doorMoveToPosition s target =
          { state := { s with doorMoveDelta := target - s.doorPosition }
            effects := doorCommand Data.DOOR_OPEN ++
              [Effect.setTimeoutNamed "move_to_position"
                (1000 * s.openingDuration * (target - s.doorPosition)) TimeoutAction.doorStop] }
        ∧ 1000 * s.openingDuration * (target - s.doorPosition) =
            |target - s.doorPosition| * s.openingDuration * 1000)
  ∧ (s.doorState ≠ DoorState.OPENING → s.doorState ≠ DoorState.CLOSING →
      target - s.doorPosition < 0 → s.closingDuration ≠ 0 →
        doorMoveToPosition s target =
          { state := { s with doorMoveDelta := target - s.doorPosition }
            effects := doorCommand Data.DOOR_CLOSE ++
              [Effect.setTimeoutNamed "move_to_position"
                (1000 * -s.closingDuration * (target - s.doorPosition)) TimeoutAction.doorStop] }
        ∧ 1000 * -s.closingDuration * (target - s.doorPosition) =
            |target - s.doorPosition| * s.closingDuration * 1000)
  ∧ (∀ u : DeviceState, runTimeoutAction TimeoutAction.doorStop u =
      { state := u, effects := doorCommand Data.DOOR_STOP }) := by
  refine ⟨?_, ?_, ?_, ?_, ?_, ?_, fun u => rfl⟩
  · intro h
    rw [doorMoveToPosition, if_pos h]
  · intro h
    by_cases hd : s.doorState = DoorState.OPENING ∨ s.doorState = DoorState.CLOSING
    · rw [doorMoveToPosition, if_pos hd]
    · simp only [doorMoveToPosition, if_neg hd]
      rw [if_pos h]
  · intro hpos h0
    by_cases hd : s.doorState = DoorState.OPENING ∨ s.doorState = DoorState.CLOSING
    · rw [doorMoveToPosition, if_pos hd]
    · simp only [doorMoveToPosition, if_neg hd, if_neg (ne_of_gt hpos), if_pos hpos]
      rw [if_pos h0]
  · intro hneg h0
    by_cases hd : s.doorState = DoorState.OPENING ∨ s.doorState = DoorState.CLOSING
    · rw [doorMoveToPosition, if_pos hd]
    · simp only [doorMoveToPosition, if_neg hd, if_neg (ne_of_lt hneg),
        if_neg (not_lt.mpr hneg.le)]
      rw [if_pos (show -s.closingDuration = 0 by rw [h0]; ring)]
  · intro ho hc hpos hdur
    have hd : ¬(s.doorState = DoorState.OPENING ∨ s.doorState = DoorState.CLOSING) := by
      tauto
    constructor
    · simp only [doorMoveToPosition, if_neg hd, if_neg (ne_of_gt hpos), if_pos hpos]
      rw [if_neg hdur]
    · rw [abs_of_pos hpos]; ring
  · intro ho hc hneg hdur
    have hd : ¬(s.doorState = DoorState.OPENING ∨ s.doorState = DoorState.CLOSING) := by
      tauto
    constructor
    · simp only [doorMoveToPosition, if_neg hd, if_neg (ne_of_lt hneg),
        if_neg (not_lt.mpr hneg.le)]
      rw [if_neg (show ¬(-s.closingDuration = 0) by simpa using hdur)]
    · rw [abs_of_neg hneg]; ring

/-- Witness for C2's amended theorem: the spec scenario — target 0.3 from
position 1.0 with closing duration 10 s — issues the CLOSE command,
records delta −0.7 and schedules the stop. -/
theorem c2_move_to_position_witness :
    doorMoveToPosition c2state (3/10) =
      { state := { c2state with doorMoveDelta := 3/10 - c2state.doorPosition }
        effects := doorCommand Data.DOOR_CLOSE ++
          [Effect.setTimeoutNamed "move_to_position"
            (1000 * -c2state.closingDuration * (3/10 - c2state.doorPosition))
            TimeoutAction.doorStop] } :=
  ((c2_move_to_position c2state (3/10)).2.2.2.2.2.1
    (by decide) (by decide)
    (by simp only [c2state]; norm_num)
    (by simp only [c2state]; norm_num)).1

lemma dpu_fields (now : Nat) (s : DeviceState) :
    (doorPositionUpdate now s).doorStartMoving = s.doorStartMoving ∧
    (doorPositionUpdate now s).doorStartPosition = s.doorStartPosition ∧
    (doorPositionUpdate now s).doorMoveDelta = s.doorMoveDelta ∧
    (doorPositionUpdate now s).startOpening = s.startOpening ∧
    (doorPositionUpdate now s).startClosing = s.startClosing ∧
    (doorPositionUpdate now s).openingDuration = s.openingDuration ∧
    (doorPositionUpdate now s).closingDuration = s.closingDuration := by
  rw [doorPositionUpdate]
  split <;> simp

lemma cancel_calib (s : DeviceState) :
    (cancelPositionSyncCallbacks s).state.openingDuration = s.openingDuration ∧
    (cancelPositionSyncCallbacks s).state.closingDuration = s.closingDuration ∧
    (cancelPositionSyncCallbacks s).state.startOpening = s.startOpening ∧
    (cancelPositionSyncCallbacks s).state.startClosing = s.startClosing := by
  rw [cancelPositionSyncCallbacks]
  split <;> simp

lemma cancel_active {s : DeviceState} (h : s.doorStartMoving ≠ 0) :
    cancelPositionSyncCallbacks s =
      { state := { s with doorStartMoving := 0
                          doorStartPosition := DOOR_POSITION_UNKNOWN
                          doorMoveDelta := DOOR_DELTA_UNKNOWN }
        effects := [Effect.cancelTimeout "move_to_position",
                    Effect.cancelRetry "position_sync_while_moving",
                    Effect.cancelTimeout "door_status_update"] } := by
  rw [cancelPositionSyncCallbacks, if_pos h]

lemma cancel_idle {s : DeviceState} (h : s.doorStartMoving = 0) :
    cancelPositionSyncCallbacks s = { state := s, effects := [] } := by
  rw [cancelPositionSyncCallbacks, if_neg (by simp [h])]

lemma calibOpening_untouched (now : Nat) (s : DeviceState) (ds prev : DoorState) :
    (calibOpening now s ds prev).closingDuration = s.closingDuration ∧
    (calibOpening now s ds prev).startClosing = s.startClosing ∧
    (calibOpening now s ds prev).doorStartMoving = s.doorStartMoving ∧
    (calibOpening now s ds prev).doorStartPosition = s.doorStartPosition ∧
    (calibOpening now s ds prev).doorMoveDelta = s.doorMoveDelta := by
  simp only [calibOpening]
  split_ifs <;> simp

lemma calibClosing_untouched (now : Nat) (s : DeviceState) (ds prev : DoorState) :
    (calibClosing now s ds prev).openingDuration = s.openingDuration ∧
    (calibClosing now s ds prev).startOpening = s.startOpening ∧
    (calibClosing now s ds prev).doorStartMoving = s.doorStartMoving ∧
    (calibClosing now s ds prev).doorStartPosition = s.doorStartPosition ∧
    (calibClosing now s ds prev).doorMoveDelta = s.doorMoveDelta := by
  simp only [calibClosing]
  split_ifs <;> simp

lemma calibOpening_skip {s : DeviceState} (now : Nat) (ds prev : DoorState)
    (h : s.openingDuration ≠ 0) : calibOpening now s ds prev = s := by
  rw [calibOpening, if_neg h]

lemma calibClosing_skip {s : DeviceState} (now : Nat) (ds prev : DoorState)
    (h : s.closingDuration ≠ 0) : calibClosing now s ds prev = s := by
  rw [calibClosing, if_neg h]

lemma statusMove_calib (now : Nat) (s : DeviceState) (ds prev : DoorState) :
    (statusMove now s ds prev).state.openingDuration = s.openingDuration ∧
    (statusMove now s ds prev).state.closingDuration = s.closingDuration ∧
    (statusMove now s ds prev).state.startOpening = s.startOpening ∧
    (statusMove now s ds prev).state.startClosing = s.startClosing := by
  simp only [statusMove]
  split_ifs <;> simp [cancel_calib, dpu_fields, cancelPositionSyncCallbacks] <;>
    split_ifs <;> simp [dpu_fields]

lemma statusSyncStart_calib (now : Nat) (s : DeviceState) (ds : DoorState) :
    (statusSyncStart now s ds).state.openingDuration = s.openingDuration ∧
    (statusSyncStart now s ds).state.closingDuration = s.closingDuration ∧
    (statusSyncStart now s ds).state.startOpening = s.startOpening ∧
    (statusSyncStart now s ds).state.startClosing = s.startClosing := by
  simp only [statusSyncStart, positionSyncWhileOpening, positionSyncWhileClosing]
  split_ifs <;> simp

lemma statusSyncStart_skip {ds : DoorState} (now : Nat) (s : DeviceState)
    (hno : ds ≠ DoorState.OPENING) (hnc : ds ≠ DoorState.CLOSING) :
    statusSyncStart now s ds = { state := s, effects := [] } := by
  rw [statusSyncStart, if_neg (by simp [hno]), if_neg (by simp [hnc])]

lemma statusCancelTerminal_calib (s : DeviceState) (ds : DoorState) :
    (statusCancelTerminal s ds).state.openingDuration = s.openingDuration ∧
    (statusCancelTerminal s ds).state.closingDuration = s.closingDuration ∧
    (statusCancelTerminal s ds).state.startOpening = s.startOpening ∧
    (statusCancelTerminal s ds).state.startClosing = s.startClosing := by
  simp only [statusCancelTerminal]
  split_ifs <;> simp [cancel_calib]

lemma statusAssign_fields (s : DeviceState) (ds prev : DoorState) (b1 b2 : Nat) :
    (statusAssign s ds prev b1 b2).state.openingDuration = s.openingDuration ∧
    (statusAssign s ds prev b1 b2).state.closingDuration = s.closingDuration ∧
    (statusAssign s ds prev b1 b2).state.startOpening = s.startOpening ∧
    (statusAssign s ds prev b1 b2).state.startClosing = s.startClosing ∧
    (statusAssign s ds prev b1 b2).state.doorStartMoving = s.doorStartMoving ∧
    (statusAssign s ds prev b1 b2).state.doorStartPosition = s.doorStartPosition ∧
    (statusAssign s ds prev b1 b2).state.doorMoveDelta = s.doorMoveDelta := by
  simp only [statusAssign]
  split_ifs <;> simp

lemma calibOpening_stopped {s : DeviceState} (now : Nat) (prev : DoorState)
    (h : s.openingDuration = 0) :
    calibOpening now s DoorState.STOPPED prev = { s with startOpening := -1 } := by
  simp [calibOpening, h]

lemma calibClosing_stopped {s : DeviceState} (now : Nat) (prev : DoorState)
    (h : s.closingDuration = 0) :
    calibClosing now s DoorState.STOPPED prev = { s with startClosing := -1 } := by
  simp [calibClosing, h]

lemma calibOpening_open_no_timer {s : DeviceState} (now : Nat)
    (h : s.openingDuration = 0) (hso : s.startOpening ≤ 0) :
    calibOpening now s DoorState.OPEN DoorState.OPENING = s := by
  simp only [calibOpening]
  rw [if_pos h, if_neg (by simp), if_neg (by simp; omega), if_neg (by simp)]

set_option maxHeartbeats 1000000 in
lemma statusBranch_calib (now : Nat) (s : DeviceState) (n b1 b2 : Nat) :
    (s.openingDuration ≠ 0 →
      (statusBranch now s n b1 b2).state.openingDuration = s.openingDuration)
  ∧ (s.closingDuration ≠ 0 →
      (statusBranch now s n b1 b2).state.closingDuration = s.closingDuration) := by
  constructor
  · intro h
    simp only [statusBranch]
    set s1 : DeviceState := { s with queryStatusFlags := s.queryStatusFlags ||| QSF_STATUS }
      with hs1
    have h1 : s1.openingDuration ≠ 0 := h
    rw [calibOpening_skip now (toDoorState n) s.doorState h1]
    simp only [statusAssign_fields, statusCancelTerminal_calib, statusSyncStart_calib,
      statusMove_calib, calibClosing_untouched]
  · intro h
    simp only [statusBranch]
    set s1 : DeviceState := { s with queryStatusFlags := s.queryStatusFlags ||| QSF_STATUS }
      with hs1
    have hoc := calibOpening_untouched now s1 (toDoorState n) s.doorState
    have hcc : (calibOpening now s1 (toDoorState n) s.doorState).closingDuration ≠ 0 := by
      rw [hoc.1]; exact h
    rw [calibClosing_skip now (toDoorState n) s.doorState hcc]
    simp only [statusAssign_fields, statusCancelTerminal_calib, statusSyncStart_calib,
      statusMove_calib, hoc.1]

set_option maxHeartbeats 1600000 in
/-- C8: once a duration is calibrated (non-zero) no decoded frame — in
particular no sequence of STATUS frames — changes it again; while a
duration is still unknown, a STOPPED observation invalidates the matching
in-progress calibration timer (sets it to −1), and an OPENING→OPEN
transition with no valid timer (start_opening ≤ 0) records no duration. -/
theorem c8_calibration_idempotent (now : Nat) (s : DeviceState) (fixed dta : Nat) :
    (s.openingDuration ≠ 0 →
      (decodePacket now s fixed dta).state.openingDuration = s.openingDuration)
  ∧ (s.closingDuration ≠ 0 →
      (decodePacket now s fixed dta).state.closingDuration = s.closingDuration)
  ∧ (¬(fixed &&& 0xfffffff = s.remoteId) → cmdOf fixed dta = Cmd.STATUS →
      toDoorState (nibbleOf dta) = DoorState.STOPPED →
      ((s.openingDuration = 0 → (decodePacket now s fixed dta).state.startOpening = -1)
       ∧ (s.closingDuration = 0 → (decodePacket now s fixed dta).state.startClosing = -1)))
  ∧ (¬(fixed &&& 0xfffffff = s.remoteId) → cmdOf fixed dta = Cmd.STATUS →
      toDoorState (nibbleOf dta) = DoorState.OPEN → s.doorState = DoorState.OPENING →
      s.startOpening ≤ 0 → s.openingDuration = 0 →
      (decodePacket now s fixed dta).state.openingDuration = 0) := by
  refine ⟨?_, ?_, ?_, ?_⟩
  · intro h
    by_cases hech : fixed &&& 0xfffffff = s.remoteId
    · rw [decodePacket_mine now dta hech]
    · rw [decodePacket_not_mine now dta hech]
      simp only [dispatchCmd]
      split_ifs <;>
        first
        | exact (statusBranch_calib now s _ _ _).1 h
        | simp [lightBranch, motorOnBranch, doorActionBranch, openingsBranch, motionBranch,
            ttcDurationBranch, extStatusBranch, holdEnable, toggleHold] <;>
          split_ifs <;> simp
  · intro h
    by_cases hech : fixed &&& 0xfffffff = s.remoteId
    · rw [decodePacket_mine now dta hech]
    · rw [decodePacket_not_mine now dta hech]
      simp only [dispatchCmd]
      split_ifs <;>
        first
        | exact (statusBranch_calib now s _ _ _).2 h
        | simp [lightBranch, motorOnBranch, doorActionBranch, openingsBranch, motionBranch,
            ttcDurationBranch, extStatusBranch, holdEnable, toggleHold] <;>
          split_ifs <;> simp
  · intro hech hcmd htds
    rw [decodePacket_not_mine now dta hech, hcmd, dispatchCmd_status]
    constructor
    · intro h
      simp only [statusBranch, htds]
      set s1 : DeviceState := { s with queryStatusFlags := s.queryStatusFlags ||| QSF_STATUS }
        with hs1
      have h1 : s1.openingDuration = 0 := h
      rw [calibOpening_stopped now s.doorState h1]
      simp only [statusAssign_fields, statusCancelTerminal_calib, statusSyncStart_calib,
        statusMove_calib, calibClosing_untouched]
    · intro h
      simp only [statusBranch, htds]
      set s1 : DeviceState := { s with queryStatusFlags := s.queryStatusFlags ||| QSF_STATUS }
        with hs1
      have hoc := calibOpening_untouched now s1 DoorState.STOPPED s.doorState
      have hcc : (calibOpening now s1 DoorState.STOPPED s.doorState).closingDuration = 0 := by
        rw [hoc.1]; exact h
      rw [calibClosing_stopped now s.doorState hcc]
      simp only [statusAssign_fields, statusCancelTerminal_calib, statusSyncStart_calib,
        statusMove_calib, hoc.2.1]
  · intro hech hcmd htds hprev hso h
    rw [decodePacket_not_mine now dta hech, hcmd, dispatchCmd_status]
    simp only [statusBranch, htds]
    set s1 : DeviceState := { s with queryStatusFlags := s.queryStatusFlags ||| QSF_STATUS }
      with hs1
    have h1 : s1.openingDuration = 0 := h
    have hso1 : s1.startOpening ≤ 0 := hso
    rw [hprev, calibOpening_open_no_timer now h1 hso1]
    simp only [statusAssign_fields, statusCancelTerminal_calib, statusSyncStart_calib,
      statusMove_calib, calibClosing_untouched]
    exact h1

lemma cancel_session_cases (s : DeviceState) :
    (cancelPositionSyncCallbacks s).state.doorStartMoving = 0
  ∧ (s.doorStartMoving ≠ 0 →
      (cancelPositionSyncCallbacks s).state.doorStartPosition = DOOR_POSITION_UNKNOWN ∧
      (cancelPositionSyncCallbacks s).state.doorMoveDelta = DOOR_DELTA_UNKNOWN)
  ∧ (s.doorStartMoving = 0 →
      (cancelPositionSyncCallbacks s).state.doorStartPosition = s.doorStartPosition ∧
      (cancelPositionSyncCallbacks s).state.doorMoveDelta = s.doorMoveDelta) := by
  rw [cancelPositionSyncCallbacks]
  split_ifs with hm <;> simp_all

lemma statusMove_open (now : Nat) (s : DeviceState) (prev : DoorState) :
    statusMove now s DoorState.OPEN prev =
      cancelPositionSyncCallbacks { s with doorPosition := 1 } := by
  simp [statusMove]

lemma statusMove_stopped (now : Nat) (s : DeviceState) (prev : DoorState) :
    statusMove now s DoorState.STOPPED prev =
      cancelPositionSyncCallbacks
        (if (doorPositionUpdate now s).doorPosition = DOOR_POSITION_UNKNOWN then
          { doorPositionUpdate now s with doorPosition := 1/2 }
         else doorPositionUpdate now s) := by
  simp [statusMove]

lemma statusMove_closed_session (now : Nat) (s : DeviceState) (prev : DoorState) :
    (statusMove now s DoorState.CLOSED prev).state.doorStartMoving = s.doorStartMoving ∧
    (statusMove now s DoorState.CLOSED prev).state.doorStartPosition = s.doorStartPosition ∧
    (statusMove now s DoorState.CLOSED prev).state.doorMoveDelta = s.doorMoveDelta := by
  simp only [statusMove]
  split_ifs <;> simp_all

lemma statusBranch_session_terminal (now : Nat) (s : DeviceState) (n b1 b2 : Nat)
    (hterm : toDoorState n = DoorState.OPEN ∨ toDoorState n = DoorState.CLOSED ∨
      toDoorState n = DoorState.STOPPED) :
    (statusBranch now s n b1 b2).state.doorStartMoving = 0
  ∧ (s.doorStartMoving ≠ 0 →
      (statusBranch now s n b1 b2).state.doorStartPosition = DOOR_POSITION_UNKNOWN ∧
      (statusBranch now s n b1 b2).state.doorMoveDelta = DOOR_DELTA_UNKNOWN)
  ∧ (s.doorStartMoving = 0 →
      (statusBranch now s n b1 b2).state.doorStartPosition = s.doorStartPosition ∧
      (statusBranch now s n b1 b2).state.doorMoveDelta = s.doorMoveDelta) := by
  have hno : toDoorState n ≠ DoorState.OPENING := by rcases hterm with h | h | h <;> simp [h]
  have hnc : toDoorState n ≠ DoorState.CLOSING := by rcases hterm with h | h | h <;> simp [h]
  simp only [statusBranch]
  set s1 : DeviceState := { s with queryStatusFlags := s.queryStatusFlags ||| QSF_STATUS }
    with hs1
  set s2 : DeviceState := calibOpening now s1 (toDoorState n) s.doorState with hs2
  set s3 : DeviceState := calibClosing now s2 (toDoorState n) s.doorState with hs3
  have h3mv : s3.doorStartMoving = s.doorStartMoving := by
    rw [hs3, (calibClosing_untouched now s2 _ _).2.2.1, hs2,
      (calibOpening_untouched now s1 _ _).2.2.1]
  have h3sp : s3.doorStartPosition = s.doorStartPosition := by
    rw [hs3, (calibClosing_untouched now s2 _ _).2.2.2.1, hs2,
      (calibOpening_untouched now s1 _ _).2.2.2.1]
  have h3dl : s3.doorMoveDelta = s.doorMoveDelta := by
    rw [hs3, (calibClosing_untouched now s2 _ _).2.2.2.2, hs2,
      (calibOpening_untouched now s1 _ _).2.2.2.2]
  set m : StepResult := statusMove now s3 (toDoorState n) s.doorState with hm
  have hmsession :
      (m.state.doorStartMoving = 0
        ∧ (s.doorStartMoving ≠ 0 →
            m.state.doorStartPosition = DOOR_POSITION_UNKNOWN ∧
            m.state.doorMoveDelta = DOOR_DELTA_UNKNOWN)
        ∧ (s.doorStartMoving = 0 →
            m.state.doorStartPosition = s.doorStartPosition ∧
            m.state.doorMoveDelta = s.doorMoveDelta))
    ∨ (m.state.doorStartMoving = s.doorStartMoving ∧
        m.state.doorStartPosition = s.doorStartPosition ∧
        m.state.doorMoveDelta = s.doorMoveDelta) := by
    rcases hterm with h | h | h
    · left
      rw [hm, h, statusMove_open]
      have hc := cancel_session_cases { s3 with doorPosition := 1 }
      refine ⟨hc.1, ?_, ?_⟩
      · intro hmv
        exact hc.2.1 (by simpa [h3mv] using hmv)
      · intro hmv
        have := hc.2.2 (by simpa [h3mv] using hmv)
        simpa [h3sp, h3dl] using this
    · right
      rw [hm, h]
      have hcl := statusMove_closed_session now s3 s.doorState
      exact ⟨hcl.1.trans h3mv, hcl.2.1.trans h3sp, hcl.2.2.trans h3dl⟩
    · left
      rw [hm, h, statusMove_stopped]
      set u2 : DeviceState :=
        (if (doorPositionUpdate now s3).doorPosition = DOOR_POSITION_UNKNOWN then
          { doorPositionUpdate now s3 with doorPosition := 1/2 }
         else doorPositionUpdate now s3) with hu2
      have hu2mv : u2.doorStartMoving = s.doorStartMoving := by
        rw [hu2]; split_ifs <;> simp [(dpu_fields now s3).1, h3mv]
      have hu2sp : u2.doorStartPosition = s.doorStartPosition := by
        rw [hu2]; split_ifs <;> simp [(dpu_fields now s3).2.1, h3sp]
      have hu2dl : u2.doorMoveDelta = s.doorMoveDelta := by
        rw [hu2]; split_ifs <;> simp [(dpu_fields now s3).2.2.1, h3dl]
      have hc := cancel_session_cases u2
      refine ⟨hc.1, ?_, ?_⟩
      · intro hmv
        exact hc.2.1 (by simpa [hu2mv] using hmv)
      · intro hmv
        have := hc.2.2 (by simpa [hu2mv] using hmv)
        simpa [hu2sp, hu2dl] using this
  rw [statusSyncStart_skip now m.state hno hnc]
  simp only [statusCancelTerminal, if_pos hterm]
  have hcT := cancel_session_cases m.state
  rcases hmsession with ⟨hm0, hmne, hmeq⟩ | ⟨hmv, hsp, hdl⟩
  · have hfin := hcT.2.2 hm0
    refine ⟨(statusAssign_fields _ _ _ _ _).2.2.2.2.1.trans hcT.1, ?_, ?_⟩
    · intro hne
      obtain ⟨hp, hd⟩ := hmne hne
      exact ⟨(statusAssign_fields _ _ _ _ _).2.2.2.2.2.1.trans (hfin.1.trans hp),
        (statusAssign_fields _ _ _ _ _).2.2.2.2.2.2.trans (hfin.2.trans hd)⟩
    · intro heq
      obtain ⟨hp, hd⟩ := hmeq heq
      exact ⟨(statusAssign_fields _ _ _ _ _).2.2.2.2.2.1.trans (hfin.1.trans hp),
        (statusAssign_fields _ _ _ _ _).2.2.2.2.2.2.trans (hfin.2.trans hd)⟩
  · refine ⟨(statusAssign_fields _ _ _ _ _).2.2.2.2.1.trans hcT.1, ?_, ?_⟩
    · intro hne
      obtain ⟨hp, hd⟩ := hcT.2.1 (by rw [hmv]; exact hne)
      exact ⟨(statusAssign_fields _ _ _ _ _).2.2.2.2.2.1.trans hp,
        (statusAssign_fields _ _ _ _ _).2.2.2.2.2.2.trans hd⟩
    · intro heq
      obtain ⟨hp, hd⟩ := hcT.2.2 (by rw [hmv]; exact heq)
      exact ⟨(statusAssign_fields _ _ _ _ _).2.2.2.2.2.1.trans (hp.trans hsp),
        (statusAssign_fields _ _ _ _ _).2.2.2.2.2.2.trans (hd.trans hdl)⟩

lemma clampQ_mono {a b : ℚ} (h : a ≤ b) : clampQ a 0 1 ≤ clampQ b 0 1 :=
  max_le_max le_rfl (min_le_min le_rfl h)

lemma clampQ_le_one (a : ℚ) : clampQ a 0 1 ≤ 1 :=
  max_le (by norm_num) (min_le_left _ _)

lemma clampQ_nonneg (a : ℚ) : 0 ≤ clampQ a 0 1 := le_max_left _ _

lemma le_clampQ {a p : ℚ} (h1 : p ≤ 1) (h : p ≤ a) : p ≤ clampQ a 0 1 :=
  le_trans (le_min h1 h) (le_max_right 0 _)

lemma clampQ_le {a p : ℚ} (h0 : 0 ≤ p) (h : a ≤ p) : clampQ a 0 1 ≤ p :=
  max_le h0 (le_trans (min_le_right 1 a) h)

lemma doorPositionUpdate_active (now : Nat) (s : DeviceState)
    (h1 : s.doorStartMoving ≠ 0) (h2 : s.doorStartPosition ≠ DOOR_POSITION_UNKNOWN)
    (h3 : s.doorMoveDelta ≠ DOOR_DELTA_UNKNOWN) :
    doorPositionUpdate now s =
      { s with doorPosition :=
          clampQ (s.doorStartPosition + ((now - s.doorStartMoving : Nat) : ℚ) /
            (1000 * (if 0 < s.doorMoveDelta then s.openingDuration else -s.closingDuration))) 0 1 } := by
  rw [doorPositionUpdate, if_neg (by tauto)]

/-- C6: within one movement session (session fields and direction
duration fixed), the positions computed by `door_position_update` at
non-decreasing times are non-decreasing and bounded in
[start_position, 1] for an opening session (delta > 0), non-increasing
and bounded in [0, start_position] for a closing session (delta < 0),
and every computed position lies in [0, 1]. -/
theorem c6_position_monotonicity (s : DeviceState) (t1 t2 : Nat)
    (hmv : s.doorStartMoving ≠ 0)
    (hsp0 : 0 ≤ s.doorStartPosition) (hsp1 : s.doorStartPosition ≤ 1)
    (hdelta : s.doorMoveDelta ≠ DOOR_DELTA_UNKNOWN)
    (ht1 : s.doorStartMoving ≤ t1) (ht12 : t1 ≤ t2) :
    (0 < s.doorMoveDelta → 0 < s.openingDuration →
       s.doorStartPosition ≤ (doorPositionUpdate t1 s).doorPosition ∧
       (doorPositionUpdate t1 s).doorPosition ≤ (doorPositionUpdate t2 s).doorPosition ∧
       (doorPositionUpdate t2 s).doorPosition ≤ 1)
  ∧ (s.doorMoveDelta < 0 → 0 < s.closingDuration →
       (doorPositionUpdate t2 s).doorPosition ≤ (doorPositionUpdate t1 s).doorPosition ∧
       (doorPositionUpdate t1 s).doorPosition ≤ s.doorStartPosition ∧
       0 ≤ (doorPositionUpdate t2 s).doorPosition)
  ∧ (∀ t : Nat, 0 ≤ (doorPositionUpdate t s).doorPosition ∧
       (doorPositionUpdate t s).doorPosition ≤ 1) := by
  have h2 : s.doorStartPosition ≠ DOOR_POSITION_UNKNOWN := by
    rw [DOOR_POSITION_UNKNOWN]
    intro hh
    rw [hh] at hsp0
    norm_num at hsp0
  have hupd : ∀ t : Nat, (doorPositionUpdate t s).doorPosition =
      clampQ (s.doorStartPosition + ((t - s.doorStartMoving : Nat) : ℚ) /
        (1000 * (if 0 < s.doorMoveDelta then s.openingDuration else -s.closingDuration))) 0 1 := by
    intro t
    rw [doorPositionUpdate_active t s hmv h2 hdelta]
  have hemono : ((t1 - s.doorStartMoving : Nat) : ℚ) ≤ ((t2 - s.doorStartMoving : Nat) : ℚ) := by
    exact_mod_cast Nat.sub_le_sub_right ht12 _
  refine ⟨?_, ?_, ?_⟩
  · intro hd hod
    have hdur : (if 0 < s.doorMoveDelta then s.openingDuration else -s.closingDuration) =
        s.openingDuration := if_pos hd
    have hDpos : (0:ℚ) < 1000 * s.openingDuration := by positivity
    refine ⟨?_, ?_, ?_⟩
    · rw [hupd t1, hdur]
      refine le_clampQ hsp1 ?_
      have : (0:ℚ) ≤ ((t1 - s.doorStartMoving : Nat) : ℚ) / (1000 * s.openingDuration) :=
        div_nonneg (Nat.cast_nonneg _) (le_of_lt hDpos)
      linarith
    · rw [hupd t1, hupd t2, hdur]
      refine clampQ_mono ?_
      have : ((t1 - s.doorStartMoving : Nat) : ℚ) / (1000 * s.openingDuration) ≤
          ((t2 - s.doorStartMoving : Nat) : ℚ) / (1000 * s.openingDuration) := by
        gcongr
      linarith
    · rw [hupd t2]
      exact clampQ_le_one _
  · intro hd hcd
    have hdur : (if 0 < s.doorMoveDelta then s.openingDuration else -s.closingDuration) =
        -s.closingDuration := if_neg (by linarith)
    have hDneg : 1000 * -s.closingDuration < 0 := by
      have : (0:ℚ) < 1000 * s.closingDuration := by positivity
      linarith
    refine ⟨?_, ?_, ?_⟩
    · rw [hupd t1, hupd t2, hdur]
      refine clampQ_mono ?_
      have := div_le_div_of_nonpos_of_le (le_of_lt hDneg) hemono
      linarith
    · rw [hupd t1, hdur]
      refine clampQ_le hsp0 ?_
      have : ((t1 - s.doorStartMoving : Nat) : ℚ) / (1000 * -s.closingDuration) ≤ 0 :=
        div_nonpos_of_nonneg_of_nonpos (Nat.cast_nonneg _) (le_of_lt hDneg)
      linarith
    · rw [hupd t2]
      exact clampQ_nonneg _
  · intro t
    rw [hupd t]
    exact ⟨clampQ_nonneg _, clampQ_le_one _⟩

/-- Witness state for C6: an opening session from position 0 started at
t = 1000 ms with a 10 s calibrated opening duration. -/
def c6session : DeviceState :=
  { doorPosition := 0, openingDuration := 10, closingDuration := 10,
    doorStartMoving := 1000, doorStartPosition := 0, doorMoveDelta := 1 }

/-- Witness for C6: reads at t = 2000 and t = 3000 of the opening session
are ordered between the start position and 1. -/
theorem c6_position_monotonicity_witness :
    c6session.doorStartPosition ≤ (doorPositionUpdate 2000 c6session).doorPosition
  ∧ (doorPositionUpdate 2000 c6session).doorPosition ≤
      (doorPositionUpdate 3000 c6session).doorPosition
  ∧ (doorPositionUpdate 3000 c6session).doorPosition ≤ 1 :=
  (c6_position_monotonicity c6session 2000 3000 (by decide)
    (by norm_num [c6session]) (by norm_num [c6session])
    (by norm_num [c6session, DOOR_DELTA_UNKNOWN]) (by decide) (by decide)).1
    (by norm_num [c6session]) (by norm_num [c6session])

lemma runRetryAux_success (flagsAt : Nat → Nat) :
    ∀ rem k fc, (∃ j, j < rem ∧ flagsAt (k + j) = QSF_ALL) →
      ∃ j, j < rem ∧ runRetryAux flagsAt k rem fc = (some (k + j), fc) ∧
        flagsAt (k + j) = QSF_ALL ∧ ∀ i, i < j → flagsAt (k + i) ≠ QSF_ALL := by
  intro rem
  induction rem with
  | zero => intro k fc h; exact absurd h.choose_spec.1 (by omega)
  | succ r ih =>
    intro k fc h
    by_cases hk : flagsAt k = QSF_ALL
    · refine ⟨0, by omega, ?_, by simpa using hk, fun i hi => absurd hi (by omega)⟩
      have hbody : queryStatusBody r (flagsAt k) false = (RetryOutcome.DONE, false, []) := by
        rw [queryStatusBody, if_pos hk]
      simp [runRetryAux, hbody]
    · obtain ⟨j, hj, hflag⟩ := h
      obtain ⟨j', rfl⟩ : ∃ j', j = j' + 1 := by
        rcases j with _ | j'
        · exact absurd hflag (by simpa using hk)
        · exact ⟨j', rfl⟩
      have hr0 : r ≠ 0 := by omega
      have hbody : queryStatusBody r (flagsAt k) false =
          (RetryOutcome.RETRY, false,
           [Effect.sendCommand Cmd.GET_STATUS 0 true,
            Effect.setTimeoutAnon 150 TimeoutAction.getExtStatus,
            Effect.setTimeoutAnon 300 TimeoutAction.getTtcDuration,
            Effect.setTimeoutAnon 450 TimeoutAction.getOpenings]) := by
        rw [queryStatusBody, if_neg hk, if_neg hr0]
      obtain ⟨j'', hj'', hrun, hfl, hmin⟩ :=
        ih (k + 1) fc ⟨j', by omega, by rw [show k + 1 + j' = k + (j' + 1) by omega]; exact hflag⟩
      refine ⟨j'' + 1, by omega, ?_, ?_, ?_⟩
      · simp only [runRetryAux, hbody]
        rw [show k + (j'' + 1) = k + 1 + j'' by omega]
        simpa using hrun
      · rw [show k + (j'' + 1) = k + 1 + j'' by omega]; exact hfl
      · intro i hi
        rcases i with _ | i'
        · simpa using hk
        · rw [show k + (i' + 1) = k + 1 + i' by omega]
          exact hmin i' (by omega)

lemma runRetryAux_failure (flagsAt : Nat → Nat) :
    ∀ rem k fc, (∀ j, j < rem → flagsAt (k + j) ≠ QSF_ALL) →
      runRetryAux flagsAt k rem fc = (none, if rem = 0 then fc else fc + 1) := by
  intro rem
  induction rem with
  | zero => intro k fc _; rfl
  | succ r ih =>
    intro k fc h
    have hk : flagsAt k ≠ QSF_ALL := by simpa using h 0 (by omega)
    by_cases hr0 : r = 0
    · subst hr0
      have hbody : queryStatusBody 0 (flagsAt k) false =
          (RetryOutcome.RETRY, true,
           [Effect.sendCommand Cmd.GET_STATUS 0 true,
            Effect.setTimeoutAnon 150 TimeoutAction.getExtStatus,
            Effect.setTimeoutAnon 300 TimeoutAction.getTtcDuration,
            Effect.setTimeoutAnon 450 TimeoutAction.getOpenings]) := by
        rw [queryStatusBody, if_neg hk, if_pos rfl]
      simp [runRetryAux, hbody]
    · have hbody : queryStatusBody r (flagsAt k) false =
          (RetryOutcome.RETRY, false,
           [Effect.sendCommand Cmd.GET_STATUS 0 true,
            Effect.setTimeoutAnon 150 TimeoutAction.getExtStatus,
            Effect.setTimeoutAnon 300 TimeoutAction.getTtcDuration,
            Effect.setTimeoutAnon 450 TimeoutAction.getOpenings]) := by
        rw [queryStatusBody, if_neg hk, if_neg hr0]
      have hrec := ih (k + 1) fc
        (fun j hj => by
          rw [show k + 1 + j = k + (j + 1) by omega]
          exact h (j + 1) (by omega))
      simp only [runRetryAux, hbody]
      rw [if_neg (by omega)] at hrec
      simp [hrec]

/-- C4: `query_status` runs a bounded retry loop — base interval 750 ms,
10 attempts, backoff factor 1.5 — whose callback re-issues the four
status queries (GET_STATUS at once, GET_EXT_STATUS, TTC_GET_DURATION,
GET_OPENINGS staggered) on every incomplete attempt; as soon as the
OR-accumulated flag bitset holds all four flags the loop answers DONE at
the earliest such attempt and `sync_failed` is never raised; if the
flags never complete across all 10 attempts, `sync_failed` is raised
exactly once, on the final attempt (retry counter 0). -/
theorem c4_query_status_sync (flagsAt : Nat → Nat) :
    queryStatusRetryParams = (750, 10, 3/2)
  ∧ ((∃ k, k < 10 ∧ flagsAt k = QSF_ALL) →
      ∃ k, k < 10 ∧ runQueryStatus flagsAt = (some k, 0) ∧ flagsAt k = QSF_ALL ∧
        ∀ j, j < k → flagsAt j ≠ QSF_ALL)
  ∧ ((∀ k, k < 10 → flagsAt k ≠ QSF_ALL) → runQueryStatus flagsAt = (none, 1))
  ∧ (∀ r flags b, flags ≠ QSF_ALL →
      queryStatusBody r flags b =
        (RetryOutcome.RETRY, if r = 0 then true else b,
         [Effect.sendCommand Cmd.GET_STATUS 0 true,
          Effect.setTimeoutAnon 150 TimeoutAction.getExtStatus,
          Effect.setTimeoutAnon 300 TimeoutAction.getTtcDuration,
          Effect.setTimeoutAnon 450 TimeoutAction.getOpenings]))
  ∧ (∀ r b, queryStatusBody r QSF_ALL b = (RetryOutcome.DONE, b, [])) := by
  refine ⟨rfl, ?_, ?_, ?_, ?_⟩
  · intro h
    obtain ⟨k, hk, hflag⟩ := h
    obtain ⟨j, hj, hrun, hfl, hmin⟩ :=
      runRetryAux_success flagsAt 10 0 0 ⟨k, hk, by simpa using hflag⟩
    exact ⟨j, hj, by simpa [runQueryStatus] using hrun, by simpa using hfl,
      fun i hi => by simpa using hmin i hi⟩
  · intro h
    have := runRetryAux_failure flagsAt 10 0 0 (fun j hj => by simpa using h j hj)
    simpa [runQueryStatus] using this
  · intro r flags b hfl
    rw [queryStatusBody, if_neg hfl]
  · intro r b
    rw [queryStatusBody, if_pos rfl]

/-- Witness for C4: with every answer already present the loop completes
on the first attempt with `sync_failed` never raised; with no answers at
all it exhausts the 10 attempts and raises `sync_failed` exactly once. -/
theorem c4_query_status_sync_witness :
    (∃ k, k < 10 ∧ runQueryStatus (fun _ => 15) = (some k, 0) ∧ (fun _ => (15:Nat)) k = QSF_ALL ∧
      ∀ j, j < k → (fun _ => (15:Nat)) j ≠ QSF_ALL)
  ∧ runQueryStatus (fun _ => 0) = (none, 1) :=
  ⟨(c4_query_status_sync (fun _ => 15)).2.1 ⟨0, by omega, by decide⟩,
   (c4_query_status_sync (fun _ => 0)).2.2.1 (fun k _ => by decide)⟩

/-- Witness state for C8: opening duration already calibrated to 7 s. -/
def c8state : DeviceState := { openingDuration := 7 }

/-- Witness for C8: a STATUS STOPPED frame leaves an already calibrated
opening duration untouched, and on an uncalibrated state the same frame
invalidates the opening calibration timer. -/
theorem c8_calibration_idempotent_witness :
    (decodePacket 0 c8state 0 0x381).state.openingDuration = c8state.openingDuration
  ∧ (decodePacket 0 exBase 0 0x381).state.startOpening = -1 :=
  ⟨(c8_calibration_idempotent 0 c8state 0 0x381).1 (by norm_num [c8state]),
   ((c8_calibration_idempotent 0 exBase 0 0x381).2.2.1
      (by decide) (by decide) (by decide)).1 rfl⟩

/-- State for C10's counterexample: no movement session is active
(`door_start_moving = 0`) but `door_move_delta` holds a stale value 1/2,
as `door_move_to_position` leaves behind when no motion status ever
arrives; durations calibrated so nothing else interferes. -/
def c10state : DeviceState :=
  { doorState := DoorState.OPEN, doorPosition := 1, openingDuration := 5,
    closingDuration := 5, doorMoveDelta := 1/2 }

/-- C10 (counterexample): a STATUS STOPPED frame received while
`door_start_moving = 0` leaves `door_move_delta` at its stale value 1/2
— `cancel_position_sync_callbacks` is guarded by `door_start_moving != 0`
— so "door_move_delta becomes DOOR_DELTA_UNKNOWN" fails. -/
theorem c10_teardown_counterexample :
    cmdOf 0 0x381 = Cmd.STATUS
  ∧ toDoorState (nibbleOf 0x381) = DoorState.STOPPED
  ∧ c10state.doorStartMoving = 0
  ∧ (decodePacket 1000 c10state 0 0x381).state.doorMoveDelta = c10state.doorMoveDelta
  ∧ c10state.doorMoveDelta ≠ DOOR_DELTA_UNKNOWN := by
  refine ⟨by decide, by decide, rfl, ?_, by norm_num [c10state, DOOR_DELTA_UNKNOWN]⟩
  rw [decodePacket_not_mine 1000 0x381 (by decide),
    show cmdOf 0 0x381 = Cmd.STATUS from by decide, dispatchCmd_status]
  exact ((statusBranch_session_terminal 1000 c10state (nibbleOf 0x381) (byte1Of 0x381)
    (byte2Of 0x381) (Or.inr (Or.inr (by decide)))).2.2 rfl).2

/-- C10 (amended): a STATUS frame observing a terminal door state (OPEN,
CLOSED or STOPPED) always leaves `door_start_moving = 0`; when a session
was active (`door_start_moving ≠ 0`) it is fully torn down —
`door_start_position` and `door_move_delta` become their sentinels; when
no session was active the cancel helper is a no-op and the two fields
keep their prior values (possibly a stale delta).  After teardown
`door_position_update` returns immediately (any sentinel field), and
`cancel_position_sync_callbacks` with `door_start_moving = 0` is a no-op,
so teardown is idempotent. -/
theorem c10_terminal_teardown (now : Nat) (s : DeviceState) (fixed dta : Nat)
    (hech : ¬(fixed &&& 0xfffffff = s.remoteId))
    (hcmd : cmdOf fixed dta = Cmd.STATUS)
    (hterm : toDoorState (nibbleOf dta) = DoorState.OPEN ∨
      toDoorState (nibbleOf dta) = DoorState.CLOSED ∨
      toDoorState (nibbleOf dta) = DoorState.STOPPED) :
    (decodePacket now s fixed dta).state.doorStartMoving = 0
  ∧ (s.doorStartMoving ≠ 0 →
      (decodePacket now s fixed dta).state.doorStartPosition = DOOR_POSITION_UNKNOWN ∧
      (decodePacket now s fixed dta).state.doorMoveDelta = DOOR_DELTA_UNKNOWN)
  ∧ (s.doorStartMoving = 0 →
      (decodePacket now s fixed dta).state.doorStartPosition = s.doorStartPosition ∧
      (decodePacket now s fixed dta).state.doorMoveDelta = s.doorMoveDelta)
  ∧ (∀ (t : Nat) (u : DeviceState),
      (u.doorStartMoving = 0 ∨ u.doorStartPosition = DOOR_POSITION_UNKNOWN ∨
       u.doorMoveDelta = DOOR_DELTA_UNKNOWN) → doorPositionUpdate t u = u)
  ∧ (∀ u : DeviceState, u.doorStartMoving = 0 →
      cancelPositionSyncCallbacks u = { state := u, effects := [] }) := by
  rw [decodePacket_not_mine now dta hech, hcmd, dispatchCmd_status]
  have hsb := statusBranch_session_terminal now s (nibbleOf dta) (byte1Of dta) (byte2Of dta) hterm
  refine ⟨hsb.1, hsb.2.1, hsb.2.2, ?_, ?_⟩
  · intro t u hu
    rw [doorPositionUpdate, if_pos hu]
  · intro u hu
    exact cancel_idle hu

/-- Witness state for C10: an active closing session. -/
def c10active : DeviceState :=
  { doorState := DoorState.CLOSING, doorPosition := 1/2, openingDuration := 5,
    closingDuration := 5, doorStartMoving := 500, doorStartPosition := 1,
    doorMoveDelta := -1 }

/-- Witness for C10's amended theorem: a STATUS OPEN frame during an
active session resets all three session fields to their sentinels. -/
theorem c10_terminal_teardown_witness :
    (decodePacket 1000 c10active 0 0x181).state.doorStartMoving = 0
  ∧ (decodePacket 1000 c10active 0 0x181).state.doorStartPosition = DOOR_POSITION_UNKNOWN
  ∧ (decodePacket 1000 c10active 0 0x181).state.doorMoveDelta = DOOR_DELTA_UNKNOWN :=
  ⟨(c10_terminal_teardown 1000 c10active 0 0x181 (by decide) (by decide)
      (Or.inl (by decide))).1,
   (c10_terminal_teardown 1000 c10active 0 0x181 (by decide) (by decide)
      (Or.inl (by decide))).2.1 (by decide)⟩

/-- C9: on each classification tick (one per elapsed 50 ms, guard
`current - last > 50`): strictly more than 3 pulses sets CLEAR; zero
pulses with the line low only records the asleep timestamp, leaving the
obstruction cell unchanged; zero pulses with the line high sets
OBSTRUCTED exactly when more than 700 ms passed since the line was last
seen low; the pulse counter is reset to 0 at the end of every tick; and
when the 50 ms guard fails nothing at all changes. -/
theorem c9_obstruction_tick (cm lm la cnt : Nat) (line : Bool) (st : ObstructionState)
    (htick : cm - lm > 50) :
    (obstructionLoop cm lm la cnt line st).lowCount = 0
  ∧ (cnt > 3 → (obstructionLoop cm lm la cnt line st).state = ObstructionState.CLEAR)
  ∧ (cnt = 0 → line = false →
      (obstructionLoop cm lm la cnt line st).state = st ∧
      (obstructionLoop cm lm la cnt line st).lastAsleep = cm)
  ∧ (cnt = 0 → line = true →
      ((cm - la > 700 → (obstructionLoop cm lm la cnt line st).state = ObstructionState.OBSTRUCTED)
       ∧ (¬(cm - la > 700) → (obstructionLoop cm lm la cnt line st).state = st)))
  ∧ (∀ cm' lm' la' cnt' line' st', ¬(cm' - lm' > 50) →
      obstructionLoop cm' lm' la' cnt' line' st' =
        { lastMillis := lm', lastAsleep := la', lowCount := cnt', state := st' }) := by
  refine ⟨?_, ?_, ?_, ?_, ?_⟩
  · rw [obstructionLoop, if_pos htick]
    split_ifs <;> rfl
  · intro hcnt
    rw [obstructionLoop, if_pos htick, if_pos hcnt]
  · intro hcnt hline
    rw [obstructionLoop, if_pos htick, if_neg (by omega), if_pos hcnt, if_pos hline]
    exact ⟨rfl, rfl⟩
  · intro hcnt hline
    constructor
    · intro hlong
      rw [obstructionLoop, if_pos htick, if_neg (by omega), if_pos hcnt,
        if_neg (by simp [hline]), if_pos hlong]
    · intro hshort
      rw [obstructionLoop, if_pos htick, if_neg (by omega), if_pos hcnt,
        if_neg (by simp [hline]), if_neg hshort]
  · intro cm' lm' la' cnt' line' st' hno
    rw [obstructionLoop, if_neg hno]

/-- Witness for C9: a tick at t = 100 ms with 5 pulses classifies CLEAR
and resets the counter; a call 10 ms after the last tick changes
nothing. -/
theorem c9_obstruction_tick_witness :
    (obstructionLoop 100 0 0 5 true ObstructionState.OBSTRUCTED).lowCount = 0
  ∧ (obstructionLoop 100 0 0 5 true ObstructionState.OBSTRUCTED).state = ObstructionState.CLEAR
  ∧ obstructionLoop 10 0 0 2 true ObstructionState.CLEAR =
      { lastMillis := 0, lastAsleep := 0, lowCount := 2, state := ObstructionState.CLEAR } :=
  ⟨(c9_obstruction_tick 100 0 0 5 true ObstructionState.OBSTRUCTED (by decide)).1,
   (c9_obstruction_tick 100 0 0 5 true ObstructionState.OBSTRUCTED (by decide)).2.1 (by decide),
   (c9_obstruction_tick 100 0 0 5 true ObstructionState.OBSTRUCTED (by decide)).2.2.2.2
     10 0 0 2 true ObstructionState.CLEAR (by decide)⟩

/-- C5 (counterexample): the outgoing entry points do write the enum
cells — `light_on` flips the light cell from OFF to ON, `lock` sets the
lock cell to LOCKED, and `toggle_hold` flips the hold cell, all without
any frame being decoded; "no other operation of the component writes
them" fails at `light_on`. -/
theorem c5_entry_points_counterexample :
    (lightOn exBase).state.lightState ≠ exBase.lightState
  ∧ (lockDoorOpener exBase).state.lockState ≠ exBase.lockState
  ∧ (toggleHold exBase).state.holdState ≠ exBase.holdState := by
  decide

/-- C5 (amended): each outgoing command entry point optimistically writes
exactly its own cell and nothing else — `light_on`/`light_off`/
`toggle_light` write only the light cell, `lock`/`unlock`/`toggle_lock`
only the lock cell, and `hold_enable`/`hold_disable`/`toggle_hold` only
the hold cell (so the motor, button, motion and obstruction cells are
untouched by all nine); the dispatcher remains the only decoder-side
writer of these cells. -/
theorem c5_entry_points_write_own_cell (s : DeviceState) :
    (lightOn s).state = { s with lightState := LightState.ON }
  ∧ (lightOff s).state = { s with lightState := LightState.OFF }
  ∧ (toggleLight s).state = { s with lightState := lightStateToggle s.lightState }
  ∧ (lockDoorOpener s).state = { s with lockState := LockState.LOCKED }
  ∧ (unlockDoorOpener s).state = { s with lockState := LockState.UNLOCKED }
  ∧ (toggleLock s).state = { s with lockState := lockStateToggle s.lockState }
  ∧ (holdEnable s).state = { s with holdState := HoldState.HOLD_ENABLED }
  ∧ (holdDisable s).state = { s with holdState := HoldState.HOLD_DISABLED }
  ∧ (toggleHold s).state = { s with holdState := holdStateToggle s.holdState } := by
  refine ⟨rfl, rfl, rfl, rfl, rfl, rfl, ?_, ?_, rfl⟩ <;>
    · cases h : s.holdState <;>
        simp [holdEnable, holdDisable, toggleHold, holdStateToggle, h] <;>
        rw [← h]

/-- Witness for C7: both sides exercised concretely — a foreign broadcast
(nibble 1) with openings = 0 is ignored; our own answer (nibble 0) is
accepted. -/
theorem c7_openings_guard_witness :
    (decodePacket 0 exBase 0x400000000 0x3412018c).state = exBase
  ∧ (decodePacket 0 exBase 0x400000000 0x3412008c).state =
      { exBase with openings := (byte1Of 0x3412008c <<< 8) ||| byte2Of 0x3412008c
                    queryStatusFlags := exBase.queryStatusFlags ||| QSF_OPENINGS } :=
  ⟨(c7_openings_guard 0 exBase 0x400000000 0x3412018c (by decide) (by decide)).1
      ⟨by decide, by decide⟩,
   (c7_openings_guard 0 exBase 0x400000000 0x3412008c (by decide) (by decide)).2
      (Or.inl (by decide))⟩
